import Mathlib

/-!
# PoMiDAQ acquisition controller

A shallow embedding of `libminiscope/miniscope.cpp`: the controller record
`MiniScopeData`, the public operations of `MiniScope`, the frame ring and the
capture thread.  Everything the controller hands to a collaborator (camera,
video writer, message callback, standard streams) is recorded as a log of the
calls issued, and everything a collaborator answers (does the camera open,
does a grab succeed, which frame does a retrieve deliver) is an argument of
the operation that asks.
-/

namespace PoMiDAQ

/-! ## Collaborators -/

/-- The colour conversions the capture thread asks of `cv::cvtColor`. -/
inductive ColorConversion where
  | BGR2GRAY
  | BayerRG2BGR
  deriving DecidableEq, Repr

/-- Images (`cv::Mat`), kept symbolic: an image is the empty matrix, a frame
delivered by the sensor, the placeholder drawn for a dropped frame, or the
result of one of the OpenCV calls of the capture thread applied to an image.
`convertTo lo hi m` stands for
`m.convertTo(m, CV_8U, 255.0 / (hi - lo), -lo * 255.0 / (hi - lo))`. -/
inductive Mat where
  | empty
  | sensor (cols rows channels seq : Nat)
  | droppedFrameImage
  | cvtColor (code : ColorConversion) (src : Mat)
  | convertTo (lo hi : Int) (src : Mat)
  deriving DecidableEq, Repr

namespace Mat

/-- Width of an image. -/
def cols : Mat → Nat
  | empty => 0
  | sensor c _ _ _ => c
  | droppedFrameImage => 752
  | cvtColor _ m => m.cols
  | convertTo _ _ m => m.cols

/-- Height of an image. -/
def rows : Mat → Nat
  | empty => 0
  | sensor _ r _ _ => r
  | droppedFrameImage => 480
  | cvtColor _ m => m.rows
  | convertTo _ _ m => m.rows

/-- Number of channels of an image. -/
def channels : Mat → Nat
  | empty => 1
  | sensor _ _ ch _ => ch
  | droppedFrameImage => 3
  | cvtColor ColorConversion.BGR2GRAY _ => 1
  | cvtColor ColorConversion.BayerRG2BGR _ => 3
  | convertTo _ _ m => m.channels

end Mat

/-- Codecs named by the callers of `setVideoCodec`. -/
inductive VideoCodec where
  | Raw | FFV1 | AV1 | VP9 | H265 | MPEG4
  deriving DecidableEq, Repr

/-- Containers named by the callers of `setVideoContainer`. -/
inductive VideoContainer where
  | Matroska | AVI
  deriving DecidableEq, Repr

/-- Calls issued on the camera `d->cam` (`cv::VideoCapture`).  A property
write carries the value written, as an exact rational.  `setCmosSettings`
is `cam.set(CV_CAP_PROP_SATURATION, SET_CMOS_SETTINGS)`; the constant comes
from `definitions.h`. -/
inductive CamCall where
  | openCam (id : Int)
  | release
  | setCmosSettings
  | setBrightness (v : ℚ)
  | setGain (v : ℚ)
  | setHue (v : ℚ)
  | grab
  | retrieve
  deriving DecidableEq, Repr

/-- Calls issued on the `VideoWriter` owned by one run of the capture
thread. -/
inductive WriterCall where
  | setCodec (c : VideoCodec)
  | setContainer (c : VideoContainer)
  | setLossless (b : Bool)
  | init (path : String) (cols rows : Nat) (fps : Nat) (isColor : Bool)
  | encodeFrame (frame : Mat)
  | finalize
  deriving DecidableEq, Repr

/-! ## The frame ring (`boost::circular_buffer<cv::Mat>`) -/

/-- A circular buffer of fixed capacity, oldest element first. -/
structure CircularBuffer (α : Type) where
  capacity : Nat
  items : List α
  deriving DecidableEq, Repr

namespace CircularBuffer

variable {α : Type}

/-- The buffer `circular_buffer<T>(n)`: capacity `n`, no elements. -/
def ofCapacity (n : Nat) : CircularBuffer α := ⟨n, []⟩

/-- Number of stored elements. -/
def size (b : CircularBuffer α) : Nat := b.items.length

/-- Append at the tail; a full buffer loses its first element, a buffer of
capacity zero stores nothing. -/
def push_back (x : α) (b : CircularBuffer α) : CircularBuffer α :=
  if b.capacity = 0 then b
  else if b.size < b.capacity then { b with items := b.items ++ [x] }
  else { b with items := b.items.drop 1 ++ [x] }

/-- The first (oldest) element, if any. -/
def front (b : CircularBuffer α) : Option α := b.items.head?

/-- Remove the first element. -/
def pop_front (b : CircularBuffer α) : CircularBuffer α :=
  { b with items := b.items.drop 1 }

end CircularBuffer

/-! ## Controller state -/

/-- Where a capture thread stands: not yet past its initial grab, at the
head of its `while (running)` loop, or returned. -/
inductive CapturePc where
  | entry
  | loop
  | done
  deriving DecidableEq, Repr

/-- A capture thread (`std::thread` running `captureThread`): its position
and its locals `frame` and `vwriter`. -/
structure CaptureThread where
  pc : CapturePc
  frame : Mat
  vwriter : List WriterCall
  deriving DecidableEq, Repr

/-- The fields of `class MiniScopeData`.  `thread` is `none` for `nullptr`;
`cam` is the log of calls issued on the camera; `onMessageCallback` tells
whether a callback is installed. -/
structure MiniScopeData where
  thread : Option CaptureThread
  cam : List CamCall
  scopeCamId : Int
  exposure : Int
  gain : Int
  excitation : Int
  fps : Nat
  excitationX10 : Bool
  minFluor : ℚ
  maxFluor : ℚ
  minFluorDisplay : Int
  maxFluorDisplay : Int
  connected : Bool
  running : Bool
  recording : Bool
  failed : Bool
  recordStart : Nat
  droppedFramesCount : Nat
  currentFPS : Nat
  frameRing : CircularBuffer Mat
  onMessageCallback : Bool
  colorCheck : Bool
  videoCodec : VideoCodec
  videoContainer : VideoContainer
  recordLossless : Bool
  deriving DecidableEq, Repr

/-- A controller together with what it has sent out: `d` is the private
record, `delivered` the messages handed to the callback, `cout` and `cerr`
the lines written to the standard streams, `spawned` and `joined` count the
capture threads created and joined so far, `pushed` lists the frames handed
to `frameRing.push_back` so far, oldest first. -/
structure MiniScope where
  d : MiniScopeData
  delivered : List String
  cout : List String
  cerr : List String
  spawned : Nat
  joined : Nat
  pushed : List Mat
  deriving DecidableEq, Repr

namespace MiniScope

/-- The constructors `MiniScopeData::MiniScopeData` and
`MiniScope::MiniScope`.  The fields they do not assign keep whatever `u`
holds for them. -/
def new (u : MiniScopeData) : MiniScope :=
  { d :=
      { u with
        thread := none
        cam := []
        scopeCamId := 0
        connected := false
        running := false
        recording := false
        failed := false
        frameRing := CircularBuffer.ofCapacity 64
        onMessageCallback := false
        videoCodec := VideoCodec.VP9
        videoContainer := VideoContainer.Matroska
        exposure := 100
        gain := 32
        excitation := 1
        excitationX10 := false
        fps := 20 }
    delivered := []
    cout := []
    cerr := []
    spawned := 0
    joined := 0
    pushed := [] }

/-- The method `MiniScope::emitMessage`: to standard output when no
callback is installed, else to the callback. -/
def emitMessage (msg : String) (s : MiniScope) : MiniScope :=
  if s.d.onMessageCallback = false then { s with cout := s.cout ++ [msg] }
  else { s with delivered := s.delivered ++ [msg] }

/-- The method `MiniScope::fail`. -/
def fail (msg : String) (s : MiniScope) : MiniScope :=
  emitMessage msg
    { s with d := { s.d with recording := false, running := false, failed := true } }

/-- The method `MiniScope::setScopeCamId`. -/
def setScopeCamId (id : Int) (s : MiniScope) : MiniScope :=
  { s with d := { s.d with scopeCamId := id } }

/-- The method `MiniScope::setExposure`. -/
def setExposure (value : Int) (s : MiniScope) : MiniScope :=
  let value := if value = 0 then 1 else value
  let value := if value > 100 then 100 else value
  let s := { s with d := { s.d with exposure := value } }
  { s with d := { s.d with cam := s.d.cam ++ [CamCall.setBrightness ((s.d.exposure : ℚ) / 100)] } }

/-- The getter `MiniScope::exposure`. -/
def exposure (s : MiniScope) : Int := s.d.exposure

/-- The method `MiniScope::setGain`. -/
def setGain (value : Int) (s : MiniScope) : MiniScope :=
  let s := { s with d := { s.d with gain := value } }
  { s with d := { s.d with cam := s.d.cam ++ [CamCall.setGain ((s.d.gain : ℚ) / 100)] } }

/-- The getter `MiniScope::gain`. -/
def gain (s : MiniScope) : Int := s.d.gain

/-- The method `MiniScope::setLed`. -/
def setLed (value : Int) (s : MiniScope) : MiniScope :=
  let value := if value > 100 then 100 else value
  let ledPower : ℚ := (value : ℚ) / 2 / 100
  if s.d.connected then
    { s with d := { s.d with cam := s.d.cam ++ [CamCall.setHue ledPower] } }
  else s

/-- The method `MiniScope::setExcitation`. -/
def setExcitation (value : Int) (s : MiniScope) : MiniScope :=
  setLed value { s with d := { s.d with excitation := value } }

/-- The getter `MiniScope::excitation`. -/
def excitation (s : MiniScope) : Int := s.d.excitation

/-- The method `MiniScope::setOnMessage`. -/
def setOnMessage (s : MiniScope) : MiniScope :=
  { s with d := { s.d with onMessageCallback := true } }

/-- The method `MiniScope::setVideoCodec`. -/
def setVideoCodec (codec : VideoCodec) (s : MiniScope) : MiniScope :=
  { s with d := { s.d with videoCodec := codec } }

/-- The method `MiniScope::setVideoContainer`. -/
def setVideoContainer (container : VideoContainer) (s : MiniScope) : MiniScope :=
  { s with d := { s.d with videoContainer := container } }

/-- The method `MiniScope::setRecordLossless`. -/
def setRecordLossless (lossless : Bool) (s : MiniScope) : MiniScope :=
  { s with d := { s.d with recordLossless := lossless } }

/-- The method `MiniScope::connect`: its result and the controller
afterwards.  `_opened` is the answer of `cam.open`, which the method does
not look at. -/
def connect (_opened : Bool) (s : MiniScope) : Bool × MiniScope :=
  if s.d.connected then
    (false, { s with cerr := s.cerr ++ ["Tried to reconnect already connected camera."] })
  else
    let s := { s with d := { s.d with cam := s.d.cam ++ [CamCall.openCam s.d.scopeCamId] } }
    let s := { s with d := { s.d with cam := s.d.cam ++ [CamCall.setCmosSettings] } }
    let s := setExposure 100 s
    let s := setGain 32 s
    let s := setExcitation 1 s
    let s := { s with d := { s.d with connected := true } }
    let s := setLed 0 s
    let s := emitMessage ("Initialized camera " ++ toString s.d.scopeCamId) s
    (true, s)

/-- The method `MiniScope::addFrameToBuffer`. -/
def addFrameToBuffer (frame : Mat) (s : MiniScope) : MiniScope :=
  { s with
    d := { s.d with frameRing := s.d.frameRing.push_back frame }
    pushed := s.pushed ++ [frame] }

/-- The method `MiniScope::currentFrame`: the returned image and the
controller afterwards. -/
def currentFrame (s : MiniScope) : Mat × MiniScope :=
  if s.d.frameRing.size = 0 then (Mat.empty, s)
  else
    (s.d.frameRing.front.getD Mat.empty,
      { s with d := { s.d with frameRing := s.d.frameRing.pop_front } })

/-- The getter `MiniScope::running`. -/
def running (s : MiniScope) : Bool := s.d.running

/-- The getter `MiniScope::recording`. -/
def recording (s : MiniScope) : Bool := s.d.running && s.d.recording

/-- The method `MiniScope::stopRecording`. -/
def stopRecording (s : MiniScope) : MiniScope :=
  { s with d := { s.d with recording := false } }

/-! ### The capture thread -/

/-- The modulus of `size_t` arithmetic. -/
def SIZE_MODULUS : Nat := 2 ^ 64

/-- What a `cam.retrieve(frame)` does: deliver a frame (with the extrema
`cv::minMaxLoc` will report for its grey image), report failure, or throw a
`cv::Exception` with text `what`. -/
inductive Retrieve where
  | ok (frame : Mat) (minVal maxVal : ℚ)
  | failed
  | threw (what : String)
  deriving DecidableEq, Repr

/-- What the camera does in one round of `cam.grab()` followed by
`cam.retrieve(frame)`. -/
inductive Capture where
  | grabFailed
  | grabbed (r : Retrieve)
  deriving DecidableEq, Repr

/-- Store the locals of the capture thread. -/
def setThread (t : CaptureThread) (s : MiniScope) : MiniScope :=
  { s with d := { s.d with thread := some t } }

/-- Record a call on the camera. -/
def camCall (c : CamCall) (s : MiniScope) : MiniScope :=
  { s with d := { s.d with cam := s.d.cam ++ [c] } }

/-- The function `captureThread` from its first statement to the head of its
loop, on the camera answer `o`, for the thread with locals `t`. -/
def captureEntry (o : Capture) (t : CaptureThread) (s : MiniScope) : MiniScope :=
  let s := { s with d := { s.d with droppedFramesCount := 0 } }
  let s := camCall CamCall.grab s
  match o with
  | Capture.grabFailed =>
    setThread { t with pc := CapturePc.done } (fail "Failed to grab initial frame." s)
  | Capture.grabbed r =>
    let s := camCall CamCall.retrieve s
    match r with
    | Retrieve.threw what =>
      let msg := "Caught OpenCV exception: " ++ what
      let s := { s with cerr := s.cerr ++ [msg] }
      let s := emitMessage msg s
      setThread { t with pc := CapturePc.done } (fail "Failed to retrieve initial frame." s)
    | Retrieve.failed =>
      setThread { t with pc := CapturePc.done } (fail "Failed to retrieve initial frame." s)
    | Retrieve.ok frame _ _ =>
      let vwriter :=
        [WriterCall.setCodec s.d.videoCodec,
         WriterCall.setContainer s.d.videoContainer,
         WriterCall.setLossless s.d.recordLossless,
         WriterCall.init "/tmp/testvideo" frame.cols frame.rows s.d.fps
           (decide (frame.channels = 3))]
      setThread { pc := CapturePc.loop, frame := frame, vwriter := vwriter } s

/-- The branch of the loop body taken when a retrieve did not deliver a
frame. -/
def dropFrame (s : MiniScope) : MiniScope :=
  let s := { s with d := { s.d with
    droppedFramesCount := (s.d.droppedFramesCount + 1) % SIZE_MODULUS } }
  let s := emitMessage "Dropped frame." s
  let s := addFrameToBuffer Mat.droppedFrameImage s
  let s :=
    if s.d.droppedFramesCount > 0 then
      let s := emitMessage "Reconnecting Miniscope..." s
      let s := camCall CamCall.release s
      let s := camCall (CamCall.openCam s.d.scopeCamId) s
      emitMessage "Miniscope reconnected." s
    else s
  if s.d.droppedFramesCount > 80 then fail "Too many dropped frames. Giving up." s
  else s

/-- The loop test of `captureThread` and, when it passes, one run of the loop
body on the camera answer `o`; when it does not pass, the statements after
the loop. -/
def captureLoop (o : Capture) (t : CaptureThread) (s : MiniScope) : MiniScope :=
  if s.d.running = false then
    setThread { t with pc := CapturePc.done, vwriter := t.vwriter ++ [WriterCall.finalize] } s
  else
    let s := camCall CamCall.grab s
    match o with
    | Capture.grabFailed => fail "Failed to grab frame." s
    | Capture.grabbed r =>
      let s := camCall CamCall.retrieve s
      match r with
      | Retrieve.threw what =>
        dropFrame { s with cerr := s.cerr ++ ["Caught OpenCV exception:" ++ what] }
      | Retrieve.failed => dropFrame s
      | Retrieve.ok frame minVal maxVal =>
        if s.d.colorCheck then
          let frame := Mat.cvtColor ColorConversion.BGR2GRAY frame
          let frame := Mat.cvtColor ColorConversion.BayerRG2BGR frame
          let s := addFrameToBuffer frame s
          setThread { t with frame := frame, vwriter := t.vwriter ++ [WriterCall.encodeFrame frame] } s
        else
          let frame := Mat.cvtColor ColorConversion.BGR2GRAY frame
          let s := { s with d := { s.d with minFluor := minVal, maxFluor := maxVal } }
          let frame := Mat.convertTo s.d.minFluorDisplay s.d.maxFluorDisplay frame
          let s := addFrameToBuffer frame s
          setThread { t with frame := frame } s

/-- One step of the capture thread, if there is one and it has not returned:
the entry block, or one pass through the loop. -/
def captureStep (o : Capture) (s : MiniScope) : MiniScope :=
  match s.d.thread with
  | none => s
  | some t =>
    match t.pc with
    | CapturePc.entry => captureEntry o t s
    | CapturePc.loop => captureLoop o t s
    | CapturePc.done => s

/-- The capture thread run on a list of camera answers, one per step. -/
def captureSteps : List Capture → MiniScope → MiniScope
  | [], s => s
  | o :: os, s => captureSteps os (captureStep o s)

/-- The call `d->thread->join()`, made with `running` false: the thread
finishes.  Two steps are enough: a thread still in its entry block runs it
(on the camera answer `o`) and then finds the loop test false; a thread at
the head of its loop finds the test false at once. -/
def join (o : Capture) (s : MiniScope) : MiniScope :=
  let s := captureStep o (captureStep o s)
  { s with joined := s.joined + 1 }

/-- The method `MiniScope::finishCaptureThread`. -/
def finishCaptureThread (o : Capture) (s : MiniScope) : MiniScope :=
  match s.d.thread with
  | none => s
  | some _ =>
    let s := { s with d := { s.d with running := false } }
    let s := join o s
    { s with d := { s.d with thread := none } }

/-- The method `MiniScope::startCaptureThread`. -/
def startCaptureThread (o : Capture) (s : MiniScope) : MiniScope :=
  let s := finishCaptureThread o s
  let s := { s with d := { s.d with running := true } }
  { s with
    d := { s.d with thread := some { pc := CapturePc.entry, frame := Mat.empty, vwriter := [] } }
    spawned := s.spawned + 1 }

/-- The method `MiniScope::stop`. -/
def stop (o : Capture) (s : MiniScope) : MiniScope :=
  let s := { s with d := { s.d with running := false } }
  let s := { s with d := { s.d with recording := false } }
  finishCaptureThread o s

/-- The method `MiniScope::disconnect`. -/
def disconnect (o : Capture) (s : MiniScope) : MiniScope :=
  let s := stop o s
  let s := camCall CamCall.release s
  emitMessage ("Disconnected camera " ++ toString s.d.scopeCamId) s

/-- The method `MiniScope::run`: its result and the controller afterwards.
`opened` answers a `cam.open`, `o` is the camera answer for a thread that is
joined while still in its entry block. -/
def run (opened : Bool) (o : Capture) (s : MiniScope) : Bool × MiniScope :=
  if s.d.connected = false then (false, s)
  else
    let r : Bool × MiniScope :=
      if s.d.failed then
        let s := emitMessage "Reconnecting to recover from previous failure." s
        let s := disconnect o s
        connect opened s
      else (true, s)
    if r.1 = false then (false, r.2)
    else (true, startCaptureThread o r.2)

/-- The method `MiniScope::startRecording` at time `now`: its result and the
controller afterwards. -/
def startRecording (now : Nat) (opened : Bool) (o : Capture) (s : MiniScope) :
    Bool × MiniScope :=
  if s.d.connected = false then (false, s)
  else
    let r : Bool × MiniScope := if s.d.running = false then run opened o s else (true, s)
    if r.1 = false then (false, r.2)
    else
      let s := r.2
      let s := { s with d := { s.d with recordStart := now } }
      (true, { s with d := { s.d with recording := true } })

/-! ### Histories -/

/-- The calls a user of the controller can make, and the steps its capture
thread can take, each with the answers of the camera it meets. -/
inductive Op where
  | connect (opened : Bool)
  | disconnect (o : Capture)
  | run (opened : Bool) (o : Capture)
  | stop (o : Capture)
  | startRecording (now : Nat) (opened : Bool) (o : Capture)
  | stopRecording
  | setScopeCamId (id : Int)
  | setExposure (value : Int)
  | setGain (value : Int)
  | setExcitation (value : Int)
  | setOnMessage
  | setVideoCodec (codec : VideoCodec)
  | setVideoContainer (container : VideoContainer)
  | setRecordLossless (lossless : Bool)
  | currentFrame
  | captureStep (o : Capture)
  deriving DecidableEq, Repr

/-- The controller after one call or step. -/
def Op.apply : Op → MiniScope → MiniScope
  | Op.connect opened, s => (MiniScope.connect opened s).2
  | Op.disconnect o, s => MiniScope.disconnect o s
  | Op.run opened o, s => (MiniScope.run opened o s).2
  | Op.stop o, s => MiniScope.stop o s
  | Op.startRecording now opened o, s => (MiniScope.startRecording now opened o s).2
  | Op.stopRecording, s => MiniScope.stopRecording s
  | Op.setScopeCamId id, s => MiniScope.setScopeCamId id s
  | Op.setExposure value, s => MiniScope.setExposure value s
  | Op.setGain value, s => MiniScope.setGain value s
  | Op.setExcitation value, s => MiniScope.setExcitation value s
  | Op.setOnMessage, s => MiniScope.setOnMessage s
  | Op.setVideoCodec codec, s => MiniScope.setVideoCodec codec s
  | Op.setVideoContainer container, s => MiniScope.setVideoContainer container s
  | Op.setRecordLossless lossless, s => MiniScope.setRecordLossless lossless s
  | Op.currentFrame, s => (MiniScope.currentFrame s).2
  | Op.captureStep o, s => MiniScope.captureStep o s

/-- The controller after a history of calls and steps, oldest first. -/
def runOps (ops : List Op) (s : MiniScope) : MiniScope :=
  ops.foldl (fun s op => op.apply s) s

/-- A retrieve that delivers no frame: it reports failure (`none`) or throws
with the given text. -/
def Retrieve.dropped : Option String → Retrieve
  | none => Retrieve.failed
  | some what => Retrieve.threw what

/-- A round of the camera in which the grab succeeds and the retrieve
delivers no frame. -/
def Capture.drop (w : Option String) : Capture := Capture.grabbed (Retrieve.dropped w)

/-- A round of the camera in which the grab succeeds and the retrieve
delivers a frame. -/
def Capture.good (f : Mat × ℚ × ℚ) : Capture := Capture.grabbed (Retrieve.ok f.1 f.2.1 f.2.2)

/-- The position of the capture thread, if there is one. -/
def threadPc (s : MiniScope) : Option CapturePc := s.d.thread.map (fun t => t.pc)

/-- A record to stand for the fields the constructors leave unassigned. -/
def blank : MiniScopeData :=
  { thread := none, cam := [], scopeCamId := 0, exposure := 0, gain := 0, excitation := 0,
    fps := 0, excitationX10 := false, minFluor := 0, maxFluor := 0, minFluorDisplay := 0,
    maxFluorDisplay := 255, connected := false, running := false, recording := false,
    failed := false, recordStart := 0, droppedFramesCount := 0, currentFPS := 0,
    frameRing := CircularBuffer.ofCapacity 0, onMessageCallback := false, colorCheck := false,
    videoCodec := VideoCodec.Raw, videoContainer := VideoContainer.AVI, recordLossless := false }

/-- A freshly constructed controller that has connected (the camera opened)
and been told to run: its capture thread has not taken a step yet. -/
def freshSession : MiniScope :=
  (run true Capture.grabFailed (connect true (MiniScope.new blank)).2).2

/-- A frame of the sensor with the extrema of its grey image. -/
def sampleFrame : Mat × ℚ × ℚ := (Mat.sensor 752 480 3 0, 0, 255)

/-- A session whose initial grab has failed: `fail` has been called and the
thread has returned (it is not joined yet). -/
def failedSession : MiniScope := captureStep Capture.grabFailed freshSession

/-- The last value written to the hue property (the LED power), if any. -/
def lastHue (log : List CamCall) : Option ℚ :=
  (log.filterMap (fun c => match c with
    | CamCall.setHue v => some v
    | _ => none)).getLast?

/-- The last message handed to `emitMessage`, read where the controller
now sends its messages. -/
def lastMessage (s : MiniScope) : Option String :=
  if s.d.onMessageCallback = false then s.cout.getLast? else s.delivered.getLast?

/-- The frames a log of writer calls passes to `encodeFrame`, oldest first. -/
def encodedFrames (log : List WriterCall) : List Mat :=
  log.filterMap (fun c => match c with
    | WriterCall.encodeFrame f => some f
    | _ => none)

/-- The frames the capture thread has passed to `encodeFrame`, if there is a
thread. -/
def threadEncoded (s : MiniScope) : Option (List Mat) :=
  s.d.thread.map (fun t => encodedFrames t.vwriter)

/-- The writer log of the capture thread, if there is a thread. -/
def threadWriter (s : MiniScope) : Option (List WriterCall) :=
  s.d.thread.map (fun t => t.vwriter)

/-- A writer log that sets the writer up and opens it once, and then only
encodes frames. -/
def WriterOpen (log : List WriterCall) : Prop :=
  ∃ (codec : VideoCodec) (container : VideoContainer) (lossless : Bool) (path : String)
    (cols rows fps : Nat) (isColor : Bool) (frames : List Mat),
    log = [WriterCall.setCodec codec, WriterCall.setContainer container,
        WriterCall.setLossless lossless, WriterCall.init path cols rows fps isColor] ++
      frames.map WriterCall.encodeFrame

/-- The writer log of a capture thread fits its position: nothing before the
entry block is through; opened once and not finalized inside the loop; after
the return either nothing at all, or opened once, frames encoded, and
finalized once as the last call. -/
def WriterShape (t : CaptureThread) : Prop :=
  match t.pc with
  | CapturePc.entry => t.vwriter = []
  | CapturePc.loop => WriterOpen t.vwriter
  | CapturePc.done =>
    t.vwriter = [] ∨ ∃ log, WriterOpen log ∧ t.vwriter = log ++ [WriterCall.finalize]

/-- Whether in a round of the camera the grab succeeds and the retrieve
delivers no frame. -/
def Capture.isDrop : Capture → Bool
  | Capture.grabbed Retrieve.failed => true
  | Capture.grabbed (Retrieve.threw _) => true
  | _ => false

/-- The number of times a writer log opens the writer. -/
def countInit (log : List WriterCall) : Nat :=
  log.countP (fun c => match c with
    | WriterCall.init _ _ _ _ _ => true
    | _ => false)

/-- The number of times a writer log finalizes the writer. -/
def countFinalize (log : List WriterCall) : Nat :=
  log.countP (fun c => match c with
    | WriterCall.finalize => true
    | _ => false)

/-- The thread counters agree with the thread handle: one more thread was
created than joined exactly when there is a handle. -/
def ThreadsCounted (s : MiniScope) : Prop :=
  s.spawned = s.joined + (if s.d.thread.isSome = true then 1 else 0)

/-- From `s` to `t` neither `failed` nor `connected` is cleared. -/
def Kept (s t : MiniScope) : Prop :=
  (s.d.failed = true → t.d.failed = true) ∧ (s.d.connected = true → t.d.connected = true)

/-- From `s` to `t` the thread handle and the thread counters are kept. -/
def SameThreads (s t : MiniScope) : Prop :=
  t.d.thread = s.d.thread ∧ t.spawned = s.spawned ∧ t.joined = s.joined

/-- The number of capture threads created and not joined yet. -/
def liveThreads (s : MiniScope) : Int := (s.spawned : Int) - (s.joined : Int)

/-- A controller whose uninitialised `colorCheck` happens to be set, after
`connect`, `run` and a first frame: its capture thread is in its loop and no
recording has been started. -/
def colorSession : MiniScope :=
  captureStep (Capture.good sampleFrame)
    (run true Capture.grabFailed
      (connect true (MiniScope.new { blank with colorCheck := true })).2).2

/-- The flags `recording`, `running`, `connected` are ordered. -/
def FlagsOrdered (s : MiniScope) : Prop :=
  (s.d.recording = true → s.d.running = true) ∧ (s.d.running = true → s.d.connected = true)

/-- From `s` to `t` the flag `connected` is kept, and `running` and
`recording` are either both kept or both off. -/
def Settled (s t : MiniScope) : Prop :=
  t.d.connected = s.d.connected ∧
    ((t.d.running = s.d.running ∧ t.d.recording = s.d.recording) ∨
      (t.d.running = false ∧ t.d.recording = false))

end MiniScope

/-! ## Theorems -/

section ring

variable {α : Type}

theorem CircularBuffer.push_back_items (x : α) (b : CircularBuffer α) (fs : List α)
    (hc : 0 < b.capacity) (h : b.items = fs.drop (fs.length - b.capacity)) :
    (b.push_back x).items = (fs ++ [x]).drop ((fs ++ [x]).length - b.capacity) ∧
      (b.push_back x).capacity = b.capacity := by
  unfold CircularBuffer.push_back CircularBuffer.size
  have hlen : b.items.length = fs.length - (fs.length - b.capacity) := by
    rw [h, List.length_drop]
  rw [if_neg (by omega)]
  by_cases hlt : b.items.length < b.capacity
  · rw [if_pos hlt]
    have h0 : fs.length - b.capacity = 0 := by omega
    have h1 : fs.length + 1 - b.capacity = 0 := by omega
    simp [h, h0, h1]
  · rw [if_neg hlt]
    refine ⟨?_, rfl⟩
    have hle : fs.length + 1 - b.capacity ≤ fs.length := by omega
    simp only [List.length_append, List.length_singleton]
    rw [List.drop_append_of_le_length hle, h, List.drop_drop]
    congr 2
    omega

end ring

namespace MiniScope

/-! ### How the operations move the flags -/

@[simp] theorem emitMessage_d (msg : String) (s : MiniScope) : (emitMessage msg s).d = s.d := by
  unfold emitMessage; split <;> rfl

@[simp] theorem fail_d (msg : String) (s : MiniScope) :
    (fail msg s).d = { s.d with recording := false, running := false, failed := true } := by
  simp [fail]

theorem Settled.refl (s : MiniScope) : Settled s s := ⟨rfl, Or.inl ⟨rfl, rfl⟩⟩

theorem Settled.trans {a b c : MiniScope} (h₁ : Settled a b) (h₂ : Settled b c) : Settled a c := by
  obtain ⟨hc₁, hf₁⟩ := h₁
  obtain ⟨hc₂, hf₂⟩ := h₂
  refine ⟨hc₂.trans hc₁, ?_⟩
  rcases hf₂ with ⟨hr, hq⟩ | h
  · rcases hf₁ with ⟨hr', hq'⟩ | ⟨hr', hq'⟩
    · exact Or.inl ⟨hr.trans hr', hq.trans hq'⟩
    · exact Or.inr ⟨hr.trans hr', hq.trans hq'⟩
  · exact Or.inr h

theorem Settled.of_d_eq {s t : MiniScope} (h : t.d.connected = s.d.connected)
    (hr : t.d.running = s.d.running) (hq : t.d.recording = s.d.recording) : Settled s t :=
  ⟨h, Or.inl ⟨hr, hq⟩⟩

theorem fail_settled (msg : String) (s : MiniScope) : Settled s (fail msg s) := by
  refine ⟨by simp, Or.inr ⟨by simp, by simp⟩⟩

theorem dropFrame_settled (s : MiniScope) : Settled s (dropFrame s) := by
  unfold dropFrame
  simp only []
  split_ifs <;> simp [Settled, addFrameToBuffer, camCall]

theorem captureEntry_settled (o : Capture) (t : CaptureThread) (s : MiniScope) :
    Settled s (captureEntry o t s) := by
  unfold captureEntry
  rcases o with _ | r
  · exact ⟨by simp [setThread, camCall], Or.inr ⟨by simp [setThread], by simp [setThread]⟩⟩
  · rcases r with ⟨f, a, b⟩ | _ | w
    · exact Settled.of_d_eq (by simp [setThread, camCall]) (by simp [setThread, camCall])
        (by simp [setThread, camCall])
    · exact ⟨by simp [setThread, camCall], Or.inr ⟨by simp [setThread], by simp [setThread]⟩⟩
    · exact ⟨by simp [setThread, camCall], Or.inr ⟨by simp [setThread], by simp [setThread]⟩⟩

theorem captureLoop_settled (o : Capture) (t : CaptureThread) (s : MiniScope) :
    Settled s (captureLoop o t s) := by
  unfold captureLoop
  split
  · exact Settled.of_d_eq (by simp [setThread]) (by simp [setThread]) (by simp [setThread])
  · rcases o with _ | r
    · exact ⟨by simp [camCall], Or.inr ⟨by simp, by simp⟩⟩
    · rcases r with ⟨f, a, b⟩ | _ | w
      · simp only []
        split <;> exact Settled.of_d_eq (by simp [setThread, camCall, addFrameToBuffer])
          (by simp [setThread, camCall, addFrameToBuffer])
          (by simp [setThread, camCall, addFrameToBuffer])
      · exact Settled.trans (Settled.of_d_eq (by simp [camCall]) (by simp [camCall])
          (by simp [camCall])) (dropFrame_settled _)
      · exact Settled.trans (Settled.of_d_eq (by simp [camCall]) (by simp [camCall])
          (by simp [camCall])) (dropFrame_settled _)

theorem captureStep_settled (o : Capture) (s : MiniScope) : Settled s (captureStep o s) := by
  unfold captureStep
  split
  · exact Settled.refl s
  · split
    · exact captureEntry_settled o _ s
    · exact captureLoop_settled o _ s
    · exact Settled.refl s

theorem join_settled (o : Capture) (s : MiniScope) : Settled s (join o s) := by
  have h := Settled.trans (captureStep_settled o s) (captureStep_settled o (captureStep o s))
  exact Settled.trans h (Settled.of_d_eq rfl rfl rfl)

/-- `finishCaptureThread` keeps `connected` and switches no flag on. -/
theorem finishCaptureThread_flags (o : Capture) (s : MiniScope) :
    (finishCaptureThread o s).d.connected = s.d.connected ∧
      ((finishCaptureThread o s).d.running = true → s.d.running = true) ∧
      ((finishCaptureThread o s).d.recording = true → s.d.recording = true) := by
  unfold finishCaptureThread
  split
  · exact ⟨rfl, id, id⟩
  · obtain ⟨hc, hf⟩ := join_settled o { s with d := { s.d with running := false } }
    simp only at hc hf ⊢
    refine ⟨hc, ?_, ?_⟩
    · rcases hf with ⟨hr, _⟩ | ⟨hr, _⟩ <;> simp [hr]
    · rcases hf with ⟨_, hq⟩ | ⟨_, hq⟩ <;> simp [hq]

theorem stop_flags (o : Capture) (s : MiniScope) :
    (stop o s).d.connected = s.d.connected ∧ (stop o s).d.running = false ∧
      (stop o s).d.recording = false := by
  unfold stop
  obtain ⟨hc, hr, hq⟩ := finishCaptureThread_flags o
    { s with d := { s.d with running := false, recording := false } }
  simp only at hc hr hq ⊢
  refine ⟨hc, ?_, ?_⟩
  · cases h : (finishCaptureThread o
      { s with d := { s.d with running := false, recording := false } }).d.running
    · rfl
    · exact absurd (hr h) (by simp)
  · cases h : (finishCaptureThread o
      { s with d := { s.d with running := false, recording := false } }).d.recording
    · rfl
    · exact absurd (hq h) (by simp)

theorem disconnect_flags (o : Capture) (s : MiniScope) :
    (disconnect o s).d.connected = s.d.connected ∧ (disconnect o s).d.running = false ∧
      (disconnect o s).d.recording = false := by
  obtain ⟨hc, hr, hq⟩ := stop_flags o s
  unfold disconnect
  simp [camCall, hc, hr, hq]

theorem connect_flags (opened : Bool) (s : MiniScope) :
    (connect opened s).2.d.connected = true ∧
      (connect opened s).2.d.running = s.d.running ∧
      (connect opened s).2.d.recording = s.d.recording := by
  unfold connect
  split
  · rename_i h
    exact ⟨h, rfl, rfl⟩
  · simp only [setLed, setExcitation, setGain, setExposure, emitMessage_d]
    split <;> simp_all

theorem startCaptureThread_flags (o : Capture) (s : MiniScope) :
    (startCaptureThread o s).d.connected = s.d.connected ∧
      (startCaptureThread o s).d.running = true := by
  unfold startCaptureThread
  exact ⟨(finishCaptureThread_flags o s).1, rfl⟩

theorem run_flags (opened : Bool) (o : Capture) (s : MiniScope) (h : FlagsOrdered s) :
    FlagsOrdered (run opened o s).2 ∧
      ((run opened o s).1 = true → (run opened o s).2.d.running = true) := by
  unfold run
  by_cases hconn : s.d.connected = false
  · rw [if_pos hconn]
    exact ⟨h, by simp⟩
  · rw [if_neg hconn]
    simp only []
    generalize hr : (if s.d.failed = true then
        connect opened
          (disconnect o (emitMessage "Reconnecting to recover from previous failure." s))
      else (true, s)) = r
    have hrc : r.2.d.connected = true := by
      subst hr
      split
      · exact (connect_flags opened _).1
      · simpa using hconn
    have hrf : r.1 = false → r.2.d.running = false ∧ r.2.d.recording = false := by
      subst hr
      split
      · intro _
        obtain ⟨-, hr, hq⟩ := connect_flags opened
          (disconnect o (emitMessage "Reconnecting to recover from previous failure." s))
        obtain ⟨-, hr', hq'⟩ := disconnect_flags o
          (emitMessage "Reconnecting to recover from previous failure." s)
        exact ⟨hr.trans hr', hq.trans hq'⟩
      · intro h1
        exact absurd h1 (by simp)
    obtain ⟨hc, hrun⟩ := startCaptureThread_flags o r.2
    by_cases h1 : r.1 = false
    · rw [if_pos h1]
      obtain ⟨hr', hq'⟩ := hrf h1
      refine ⟨⟨fun hrec => ?_, fun hrun' => ?_⟩, by simp⟩
      · exact absurd (hq' ▸ hrec) (by simp)
      · exact absurd (hr' ▸ hrun') (by simp)
    · rw [if_neg h1]
      exact ⟨⟨fun _ => hrun, fun _ => hc.trans hrc⟩, fun _ => hrun⟩

theorem startRecording_ordered (now : Nat) (opened : Bool) (o : Capture) (s : MiniScope)
    (h : FlagsOrdered s) : FlagsOrdered (startRecording now opened o s).2 := by
  unfold startRecording
  split
  · exact h
  · simp only []
    by_cases hrun : s.d.running = false
    · rw [if_pos hrun]
      obtain ⟨hord, htrue⟩ := run_flags opened o s h
      split
      · exact hord
      · rename_i hne
        have hr := htrue (by simpa using hne)
        exact ⟨fun _ => hr, fun _ => hord.2 hr⟩
    · rw [if_neg hrun]
      simp only [Bool.true_eq_false, if_false]
      have hr : s.d.running = true := by simpa using hrun
      exact ⟨fun _ => hr, fun _ => h.2 hr⟩

theorem Settled.ordered {s t : MiniScope} (hst : Settled s t) (h : FlagsOrdered s) :
    FlagsOrdered t := by
  obtain ⟨hc, hf⟩ := hst
  unfold FlagsOrdered
  rcases hf with ⟨hr, hq⟩ | ⟨hr, hq⟩
  · rw [hc, hr, hq]; exact h
  · rw [hr, hq]; simp

theorem apply_ordered (op : Op) (s : MiniScope) (h : FlagsOrdered s) :
    FlagsOrdered (op.apply s) := by
  cases op with
  | connect opened =>
    obtain ⟨hc, hr, hq⟩ := connect_flags opened s
    show FlagsOrdered (connect opened s).2
    exact ⟨fun hrec => by rw [hr]; exact h.1 (by rw [← hq]; exact hrec), fun _ => hc⟩
  | disconnect o =>
    obtain ⟨_, hr, hq⟩ := disconnect_flags o s
    exact ⟨fun hrec => absurd (hq ▸ hrec) (by simp), fun hrun => absurd (hr ▸ hrun) (by simp)⟩
  | run opened o => exact (run_flags opened o s h).1
  | stop o =>
    obtain ⟨_, hr, hq⟩ := stop_flags o s
    exact ⟨fun hrec => absurd (hq ▸ hrec) (by simp), fun hrun => absurd (hr ▸ hrun) (by simp)⟩
  | startRecording now opened o => exact startRecording_ordered now opened o s h
  | stopRecording => exact ⟨fun hrec => absurd hrec (by simp [Op.apply, stopRecording]), h.2⟩
  | setScopeCamId id => exact h
  | setExposure value => exact h
  | setGain value => exact h
  | setExcitation value =>
    have e : (setExcitation value s).d.connected = s.d.connected ∧
        (setExcitation value s).d.running = s.d.running ∧
        (setExcitation value s).d.recording = s.d.recording := by
      unfold setExcitation setLed
      simp only []
      split <;> exact ⟨rfl, rfl, rfl⟩
    exact Settled.ordered ⟨e.1, Or.inl e.2⟩ h
  | setOnMessage => exact h
  | setVideoCodec codec => exact h
  | setVideoContainer container => exact h
  | setRecordLossless lossless => exact h
  | currentFrame =>
    have e : (currentFrame s).2.d.connected = s.d.connected ∧
        (currentFrame s).2.d.running = s.d.running ∧
        (currentFrame s).2.d.recording = s.d.recording := by
      unfold currentFrame
      split <;> exact ⟨rfl, rfl, rfl⟩
    exact Settled.ordered ⟨e.1, Or.inl e.2⟩ h
  | captureStep o => exact Settled.ordered (captureStep_settled o s) h

theorem runOps_ordered (ops : List Op) (s : MiniScope) (h : FlagsOrdered s) :
    FlagsOrdered (runOps ops s) := by
  induction ops generalizing s with
  | nil => exact h
  | cons op ops ih => exact ih (op.apply s) (apply_ordered op s h)

/-! ### The capture loop -/

theorem dropFrame_fields (s : MiniScope) :
    (dropFrame s).d.thread = s.d.thread ∧
      (dropFrame s).d.droppedFramesCount = (s.d.droppedFramesCount + 1) % SIZE_MODULUS ∧
      (dropFrame s).d.running =
        (if (s.d.droppedFramesCount + 1) % SIZE_MODULUS > 80 then false else s.d.running) ∧
      (dropFrame s).d.failed =
        (if (s.d.droppedFramesCount + 1) % SIZE_MODULUS > 80 then true else s.d.failed) := by
  unfold dropFrame
  simp only []
  split_ifs <;> simp_all [addFrameToBuffer, camCall]

theorem captureStep_drop (w : Option String) (s : MiniScope) (t : CaptureThread)
    (ht : s.d.thread = some t) (hpc : t.pc = CapturePc.loop) (hrun : s.d.running = true) :
    (captureStep (Capture.drop w) s).d.thread = some t ∧
      (captureStep (Capture.drop w) s).d.droppedFramesCount =
        (s.d.droppedFramesCount + 1) % SIZE_MODULUS ∧
      (captureStep (Capture.drop w) s).d.running =
        (if (s.d.droppedFramesCount + 1) % SIZE_MODULUS > 80 then false else true) ∧
      (captureStep (Capture.drop w) s).d.failed =
        (if (s.d.droppedFramesCount + 1) % SIZE_MODULUS > 80 then true else s.d.failed) := by
  unfold captureStep
  rw [ht]
  simp only [hpc]
  unfold captureLoop
  rw [if_neg (by simp [hrun])]
  cases w with
  | none =>
    simp only [Capture.drop, Retrieve.dropped]
    have h := dropFrame_fields (camCall CamCall.retrieve (camCall CamCall.grab s))
    simpa [camCall, ht, hrun] using h
  | some what =>
    simp only [Capture.drop, Retrieve.dropped]
    have h := dropFrame_fields
      { camCall CamCall.retrieve (camCall CamCall.grab s) with
        cerr := (camCall CamCall.retrieve (camCall CamCall.grab s)).cerr ++
          ["Caught OpenCV exception:" ++ what] }
    simpa [camCall, ht, hrun] using h

theorem captureStep_good (f : Mat × ℚ × ℚ) (s : MiniScope) (t : CaptureThread)
    (ht : s.d.thread = some t) (hpc : t.pc = CapturePc.loop) (hrun : s.d.running = true) :
    (∃ t', (captureStep (Capture.good f) s).d.thread = some t' ∧ t'.pc = CapturePc.loop) ∧
      (captureStep (Capture.good f) s).d.droppedFramesCount = s.d.droppedFramesCount ∧
      (captureStep (Capture.good f) s).d.running = true ∧
      (captureStep (Capture.good f) s).d.failed = s.d.failed := by
  unfold captureStep
  rw [ht]
  simp only [hpc]
  unfold captureLoop
  rw [if_neg (by simp [hrun])]
  simp only [Capture.good]
  split <;> simp [setThread, addFrameToBuffer, camCall, hpc, hrun]

theorem captureStep_exit (o : Capture) (s : MiniScope) (t : CaptureThread)
    (ht : s.d.thread = some t) (hpc : t.pc = CapturePc.loop) (hrun : s.d.running = false) :
    captureStep o s =
      setThread { t with pc := CapturePc.done, vwriter := t.vwriter ++ [WriterCall.finalize] } s := by
  unfold captureStep
  rw [ht]
  simp only [hpc]
  unfold captureLoop
  rw [if_pos hrun]

theorem captureSteps_append (xs ys : List Capture) (s : MiniScope) :
    captureSteps (xs ++ ys) s = captureSteps ys (captureSteps xs s) := by
  induction xs generalizing s with
  | nil => rfl
  | cons x xs ih => exact ih (captureStep x s)

theorem captureSteps_goods (goods : List (Mat × ℚ × ℚ)) (s : MiniScope) (t : CaptureThread)
    (ht : s.d.thread = some t) (hpc : t.pc = CapturePc.loop) (hrun : s.d.running = true) :
    threadPc (captureSteps (goods.map Capture.good) s) = some CapturePc.loop ∧
      (captureSteps (goods.map Capture.good) s).d.droppedFramesCount = s.d.droppedFramesCount ∧
      (captureSteps (goods.map Capture.good) s).d.running = true ∧
      (captureSteps (goods.map Capture.good) s).d.failed = s.d.failed := by
  induction goods generalizing s t with
  | nil => exact ⟨by simp [captureSteps, threadPc, ht, hpc], rfl, hrun, rfl⟩
  | cons g goods ih =>
    obtain ⟨⟨t', ht', hpc'⟩, hc, hr, hf⟩ := captureStep_good g s t ht hpc hrun
    obtain ⟨h1, h2, h3, h4⟩ := ih (captureStep (Capture.good g) s) t' ht' hpc' hr
    exact ⟨h1, h2.trans hc, h3, h4.trans hf⟩

theorem captureSteps_drops (ws : List (Option String)) (s : MiniScope) (t : CaptureThread)
    (ht : s.d.thread = some t) (hpc : t.pc = CapturePc.loop) (hrun : s.d.running = true)
    (hle : s.d.droppedFramesCount + ws.length ≤ 80) :
    (captureSteps (ws.map Capture.drop) s).d.thread = some t ∧
      (captureSteps (ws.map Capture.drop) s).d.droppedFramesCount =
        s.d.droppedFramesCount + ws.length ∧
      (captureSteps (ws.map Capture.drop) s).d.running = true ∧
      (captureSteps (ws.map Capture.drop) s).d.failed = s.d.failed := by
  induction ws generalizing s with
  | nil => exact ⟨ht, rfl, hrun, rfl⟩
  | cons w ws ih =>
    simp only [List.length_cons] at hle
    obtain ⟨h1, h2, h3, h4⟩ := captureStep_drop w s t ht hpc hrun
    have hmod : (s.d.droppedFramesCount + 1) % SIZE_MODULUS = s.d.droppedFramesCount + 1 := by
      unfold SIZE_MODULUS; omega
    rw [hmod] at h2 h3 h4
    rw [if_neg (by omega)] at h3 h4
    obtain ⟨k1, k2, k3, k4⟩ := ih (captureStep (Capture.drop w) s) h1 h3 (by rw [h2]; omega)
    refine ⟨k1, ?_, k3, k4.trans h4⟩
    show (captureSteps (ws.map Capture.drop) (captureStep (Capture.drop w) s)).d.droppedFramesCount
      = s.d.droppedFramesCount + (w :: ws).length
    rw [k2, h2, List.length_cons]; omega

theorem captureStep_entry_good (f : Mat × ℚ × ℚ) (s : MiniScope) (t : CaptureThread)
    (ht : s.d.thread = some t) (hpc : t.pc = CapturePc.entry) :
    (∃ t', (captureStep (Capture.good f) s).d.thread = some t' ∧ t'.pc = CapturePc.loop) ∧
      (captureStep (Capture.good f) s).d.droppedFramesCount = 0 ∧
      (captureStep (Capture.good f) s).d.running = s.d.running ∧
      (captureStep (Capture.good f) s).d.failed = s.d.failed := by
  unfold captureStep
  rw [ht]
  simp only [hpc]
  unfold captureEntry
  simp [Capture.good, setThread, camCall]

/-- A session whose first frame arrives, then any number of further frames,
then `ws.length ≤ 80` rounds without a frame: the loop is still running. -/
theorem session_with_few_drops (s : MiniScope) (t : CaptureThread)
    (ht : s.d.thread = some t) (hpc : t.pc = CapturePc.entry) (hrun : s.d.running = true)
    (first : Mat × ℚ × ℚ) (goods : List (Mat × ℚ × ℚ)) (ws : List (Option String))
    (hle : ws.length ≤ 80) :
    threadPc (captureSteps
        (Capture.good first :: (goods.map Capture.good ++ ws.map Capture.drop)) s) =
        some CapturePc.loop ∧
      (captureSteps (Capture.good first :: (goods.map Capture.good ++ ws.map Capture.drop))
        s).d.droppedFramesCount = ws.length ∧
      (captureSteps (Capture.good first :: (goods.map Capture.good ++ ws.map Capture.drop))
        s).d.running = true ∧
      (captureSteps (Capture.good first :: (goods.map Capture.good ++ ws.map Capture.drop))
        s).d.failed = s.d.failed := by
  obtain ⟨⟨t₁, ht₁, hpc₁⟩, hc₁, hr₁, hf₁⟩ := captureStep_entry_good first s t ht hpc
  obtain ⟨hp₂, hc₂, hr₂, hf₂⟩ :=
    captureSteps_goods goods (captureStep (Capture.good first) s) t₁ ht₁ hpc₁ (hr₁.trans hrun)
  show threadPc (captureSteps _ (captureStep (Capture.good first) s)) = _ ∧
    (captureSteps _ (captureStep (Capture.good first) s)).d.droppedFramesCount = _ ∧
    (captureSteps _ (captureStep (Capture.good first) s)).d.running = _ ∧
    (captureSteps _ (captureStep (Capture.good first) s)).d.failed = _
  rw [captureSteps_append]
  generalize captureSteps (goods.map Capture.good) (captureStep (Capture.good first) s) = s₂
    at hp₂ hc₂ hr₂ hf₂ ⊢
  rw [hc₁] at hc₂
  cases hth : s₂.d.thread with
  | none => simp [threadPc, hth] at hp₂
  | some t₂ =>
    have hpc₂ : t₂.pc = CapturePc.loop := by simpa [threadPc, hth] using hp₂
    obtain ⟨h1, h2, h3, h4⟩ := captureSteps_drops ws s₂ t₂ hth hpc₂ hr₂ (by rw [hc₂]; omega)
    refine ⟨by simp [threadPc, h1, hpc₂], by rw [h2, hc₂]; omega, h3, ?_⟩
    rw [h4, hf₂, hf₁]

theorem run_running_of_ok (opened : Bool) (o : Capture) (s : MiniScope)
    (h : (run opened o s).1 = true) : (run opened o s).2.d.running = true := by
  unfold run at h ⊢
  by_cases hconn : s.d.connected = false
  · rw [if_pos hconn] at h
    exact absurd h (by simp)
  · rw [if_neg hconn] at h ⊢
    simp only [] at h ⊢
    generalize (if s.d.failed = true then
        connect opened
          (disconnect o (emitMessage "Reconnecting to recover from previous failure." s))
      else (true, s)) = r at h ⊢
    by_cases h1 : r.1 = false
    · rw [if_pos h1] at h
      exact absurd h (by simp)
    · rw [if_neg h1]
      exact (startCaptureThread_flags o _).2

theorem run_recording_of_fail (opened : Bool) (o : Capture) (s : MiniScope)
    (hc : s.d.connected = true) (h : (run opened o s).1 = false) :
    (run opened o s).2.d.recording = false := by
  unfold run at h ⊢
  rw [if_neg (show ¬ s.d.connected = false by simp [hc])] at h ⊢
  simp only [] at h ⊢
  by_cases hf : s.d.failed = true
  · rw [if_pos hf] at h ⊢
    obtain ⟨-, -, hq⟩ := connect_flags opened
      (disconnect o (emitMessage "Reconnecting to recover from previous failure." s))
    obtain ⟨-, -, hq'⟩ := disconnect_flags o
      (emitMessage "Reconnecting to recover from previous failure." s)
    by_cases h1 : (connect opened
        (disconnect o (emitMessage "Reconnecting to recover from previous failure." s))).1 = false
    · rw [if_pos h1]
      exact hq.trans hq'
    · rw [if_neg h1] at h
      exact absurd h (by simp)
  · rw [if_neg hf] at h
    exact absurd h (by simp)

/-- On a connected controller marked `failed`, `run` always returns false:
`disconnect` keeps `connected`, so the `connect` that follows is turned
down. -/
theorem run_on_failed_returns_false (opened : Bool) (o : Capture) (s : MiniScope)
    (hc : s.d.connected = true) (hf : s.d.failed = true) :
    (run opened o s).1 = false ∧ (run opened o s).2.d.connected = true ∧
      (run opened o s).2.d.running = false ∧ (run opened o s).2.d.recording = false := by
  obtain ⟨hc', hr', hq'⟩ := disconnect_flags o
    (emitMessage "Reconnecting to recover from previous failure." s)
  rw [emitMessage_d] at hc'
  have hconn : (connect opened
      (disconnect o (emitMessage "Reconnecting to recover from previous failure." s))).1 =
      false := by
    unfold connect
    rw [if_pos (hc'.trans hc)]
  obtain ⟨k1, k2, k3⟩ := connect_flags opened
    (disconnect o (emitMessage "Reconnecting to recover from previous failure." s))
  unfold run
  rw [if_neg (show ¬ s.d.connected = false by simp [hc]), if_pos hf]
  simp only []
  rw [if_pos hconn]
  exact ⟨rfl, k1, k2.trans hr', k3.trans hq'⟩

/-- A negative argument of `setExposure` is stored as it is. -/
theorem setExposure_of_neg (value : Int) (s : MiniScope) (h : value < 0) :
    exposure (setExposure value s) = value := by
  unfold exposure setExposure
  simp only []
  rw [if_neg (by omega), if_neg (by omega)]

/-! ### The end of a session -/

theorem captureStep_of_done (o : Capture) (s : MiniScope)
    (h : threadPc s = some CapturePc.done) : captureStep o s = s := by
  unfold captureStep
  cases ht : s.d.thread with
  | none => rfl
  | some t =>
    have hpc : t.pc = CapturePc.done := by simpa [threadPc, ht] using h
    simp only [hpc]

theorem captureSteps_of_done (os : List Capture) (s : MiniScope)
    (h : threadPc s = some CapturePc.done) : captureSteps os s = s := by
  induction os with
  | nil => rfl
  | cons o os ih =>
    show captureSteps os (captureStep o s) = s
    rw [captureStep_of_done o s h]
    exact ih

/-- A thread at the head of its loop that finds `running` clear only
finalizes its writer and returns, whatever else it is asked to do. -/
theorem captureSteps_after_stop (os : List Capture) (s : MiniScope) (t : CaptureThread)
    (ht : s.d.thread = some t) (hpc : t.pc = CapturePc.loop) (hrun : s.d.running = false) :
    captureSteps os s = s ∨
      captureSteps os s =
        setThread { t with pc := CapturePc.done, vwriter := t.vwriter ++ [WriterCall.finalize] } s := by
  cases os with
  | nil => exact Or.inl rfl
  | cons o os =>
    right
    show captureSteps os (captureStep o s) = _
    rw [captureStep_exit o s t ht hpc hrun]
    exact captureSteps_of_done os _ (by simp [threadPc, setThread])

@[simp] theorem lastMessage_emitMessage (msg : String) (s : MiniScope) :
    lastMessage (emitMessage msg s) = some msg := by
  unfold lastMessage emitMessage
  split <;> simp_all

@[simp] theorem lastMessage_fail (msg : String) (s : MiniScope) :
    lastMessage (fail msg s) = some msg := by
  unfold fail
  exact lastMessage_emitMessage msg _

@[simp] theorem lastMessage_setThread (t : CaptureThread) (s : MiniScope) :
    lastMessage (setThread t s) = lastMessage s := rfl

@[simp] theorem encodedFrames_finalize (log : List WriterCall) :
    encodedFrames (log ++ [WriterCall.finalize]) = encodedFrames log := by
  simp [encodedFrames, List.filterMap_append]

/-! ### What a step of the capture thread keeps -/

@[simp] theorem emitMessage_spawned (msg : String) (s : MiniScope) :
    (emitMessage msg s).spawned = s.spawned := by
  unfold emitMessage; split <;> rfl

@[simp] theorem emitMessage_joined (msg : String) (s : MiniScope) :
    (emitMessage msg s).joined = s.joined := by
  unfold emitMessage; split <;> rfl

@[simp] theorem emitMessage_pushed (msg : String) (s : MiniScope) :
    (emitMessage msg s).pushed = s.pushed := by
  unfold emitMessage; split <;> rfl

@[simp] theorem fail_spawned (msg : String) (s : MiniScope) :
    (fail msg s).spawned = s.spawned := by
  simp [fail]

@[simp] theorem fail_joined (msg : String) (s : MiniScope) :
    (fail msg s).joined = s.joined := by
  simp [fail]

@[simp] theorem fail_pushed (msg : String) (s : MiniScope) :
    (fail msg s).pushed = s.pushed := by
  simp [fail]

theorem dropFrame_keeps (s : MiniScope) :
    (dropFrame s).d.colorCheck = s.d.colorCheck ∧ (dropFrame s).d.scopeCamId = s.d.scopeCamId ∧
      (dropFrame s).spawned = s.spawned ∧ (dropFrame s).joined = s.joined ∧
      (s.d.failed = true → (dropFrame s).d.failed = true) := by
  unfold dropFrame
  simp only []
  split_ifs <;> simp [addFrameToBuffer, camCall]

/-- A step of the capture thread keeps the thread handle, the settings it
reads and the thread counters, and does not clear `failed`. -/
theorem captureStep_keeps (o : Capture) (s : MiniScope) :
    (captureStep o s).d.thread.isSome = s.d.thread.isSome ∧
      (captureStep o s).d.colorCheck = s.d.colorCheck ∧
      (captureStep o s).d.scopeCamId = s.d.scopeCamId ∧
      (captureStep o s).spawned = s.spawned ∧ (captureStep o s).joined = s.joined ∧
      (s.d.failed = true → (captureStep o s).d.failed = true) := by
  unfold captureStep
  cases ht : s.d.thread with
  | none => simp [ht]
  | some t =>
    simp only []
    cases hpc : t.pc with
    | done => simp [ht]
    | entry =>
      simp only []
      unfold captureEntry
      rcases o with _ | r
      · simp [setThread, camCall]
      · rcases r with ⟨f, a, b⟩ | _ | w <;> simp [setThread, camCall]
    | loop =>
      simp only []
      unfold captureLoop
      split
      · simp [setThread]
      · rcases o with _ | r
        · simp [camCall, ht]
        · rcases r with ⟨f, a, b⟩ | _ | w
          · simp only []
            split <;> simp [setThread, camCall, addFrameToBuffer]
          · obtain ⟨h1, h2, h3, h4, h5⟩ :=
              dropFrame_keeps (camCall CamCall.retrieve (camCall CamCall.grab s))
            have ht' := (dropFrame_fields (camCall CamCall.retrieve (camCall CamCall.grab s))).1
            simp only [] at h1 h2 h3 h4 h5 ht' ⊢
            rw [h1, h2, h3, h4, ht']
            exact ⟨by simp [camCall, ht], rfl, rfl, rfl, rfl, h5⟩
          · obtain ⟨h1, h2, h3, h4, h5⟩ :=
              dropFrame_keeps
                { camCall CamCall.retrieve (camCall CamCall.grab s) with
                  cerr := (camCall CamCall.retrieve (camCall CamCall.grab s)).cerr ++
                    ["Caught OpenCV exception:" ++ w] }
            have ht' := (dropFrame_fields
                { camCall CamCall.retrieve (camCall CamCall.grab s) with
                  cerr := (camCall CamCall.retrieve (camCall CamCall.grab s)).cerr ++
                    ["Caught OpenCV exception:" ++ w] }).1
            simp only [] at h1 h2 h3 h4 h5 ht' ⊢
            rw [h1, h2, h3, h4, ht']
            exact ⟨by simp [camCall, ht], rfl, rfl, rfl, rfl, h5⟩

theorem captureStep_at_entry (o : Capture) (s : MiniScope) (t : CaptureThread)
    (ht : s.d.thread = some t) (hpc : t.pc = CapturePc.entry) :
    captureStep o s = captureEntry o t s := by
  unfold captureStep
  rw [ht]
  simp only [hpc]

theorem captureStep_at_loop (o : Capture) (s : MiniScope) (t : CaptureThread)
    (ht : s.d.thread = some t) (hpc : t.pc = CapturePc.loop) :
    captureStep o s = captureLoop o t s := by
  unfold captureStep
  rw [ht]
  simp only [hpc]

theorem pc_cases (t : CaptureThread) :
    t.pc = CapturePc.entry ∨ t.pc = CapturePc.loop ∨ t.pc = CapturePc.done := by
  cases t.pc <;> simp

/-- How one step of the capture thread moves its position and its writer
log. -/
theorem captureStep_thread (o : Capture) (s : MiniScope) (t : CaptureThread)
    (ht : s.d.thread = some t) :
    ∃ t', (captureStep o s).d.thread = some t' ∧
      ((t.pc = CapturePc.entry ∧ t'.pc = CapturePc.done ∧ t'.vwriter = t.vwriter) ∨
        (t.pc = CapturePc.entry ∧ t'.pc = CapturePc.loop ∧ ∃ f : Mat, t'.vwriter =
          [WriterCall.setCodec s.d.videoCodec, WriterCall.setContainer s.d.videoContainer,
            WriterCall.setLossless s.d.recordLossless,
            WriterCall.init "/tmp/testvideo" f.cols f.rows s.d.fps (decide (f.channels = 3))]) ∨
        (t.pc = CapturePc.loop ∧ t'.pc = CapturePc.done ∧
          t'.vwriter = t.vwriter ++ [WriterCall.finalize]) ∨
        (t.pc = CapturePc.loop ∧ t'.pc = CapturePc.loop ∧ t'.vwriter = t.vwriter) ∨
        (t.pc = CapturePc.loop ∧ t'.pc = CapturePc.loop ∧ s.d.colorCheck = true ∧
          ∃ f : Mat, t'.vwriter = t.vwriter ++ [WriterCall.encodeFrame f]) ∨
        (t.pc = CapturePc.done ∧ t' = t)) := by
  rcases pc_cases t with hpc | hpc | hpc
  · rw [captureStep_at_entry o s t ht hpc]
    unfold captureEntry
    rcases o with _ | r
    · exact ⟨_, rfl, Or.inl ⟨hpc, rfl, rfl⟩⟩
    · rcases r with ⟨f, a, b⟩ | _ | w
      · exact ⟨_, rfl, Or.inr (Or.inl ⟨hpc, rfl, f, rfl⟩)⟩
      · exact ⟨_, rfl, Or.inl ⟨hpc, rfl, rfl⟩⟩
      · exact ⟨_, rfl, Or.inl ⟨hpc, rfl, rfl⟩⟩
  · rw [captureStep_at_loop o s t ht hpc]
    unfold captureLoop
    split
    · exact ⟨_, rfl, Or.inr (Or.inr (Or.inl ⟨hpc, rfl, rfl⟩))⟩
    · rcases o with _ | r
      · exact ⟨t, by simp [camCall, ht], Or.inr (Or.inr (Or.inr (Or.inl ⟨hpc, hpc, rfl⟩)))⟩
      · rcases r with ⟨f, a, b⟩ | _ | w
        · simp only []
          by_cases hcc : s.d.colorCheck = true
          · rw [if_pos (by simpa [camCall] using hcc)]
            exact ⟨_, rfl, Or.inr (Or.inr (Or.inr (Or.inr (Or.inl ⟨hpc, hpc, hcc, _, rfl⟩))))⟩
          · rw [if_neg (by simpa [camCall] using hcc)]
            exact ⟨_, rfl, Or.inr (Or.inr (Or.inr (Or.inl ⟨hpc, hpc, rfl⟩)))⟩
        · refine ⟨t, ?_, Or.inr (Or.inr (Or.inr (Or.inl ⟨hpc, hpc, rfl⟩)))⟩
          rw [(dropFrame_fields _).1]
          simp [camCall, ht]
        · refine ⟨t, ?_, Or.inr (Or.inr (Or.inr (Or.inl ⟨hpc, hpc, rfl⟩)))⟩
          rw [(dropFrame_fields _).1]
          simp [camCall, ht]
  · rw [captureStep_of_done o s (by simp [threadPc, ht, hpc])]
    exact ⟨t, ht, Or.inr (Or.inr (Or.inr (Or.inr (Or.inr ⟨hpc, rfl⟩))))⟩

/-! ### The writer of a session -/

theorem countInit_encodes (frames : List Mat) :
    countInit (frames.map WriterCall.encodeFrame) = 0 ∧
      countFinalize (frames.map WriterCall.encodeFrame) = 0 := by
  induction frames with
  | nil => exact ⟨rfl, rfl⟩
  | cons f fs ih =>
    obtain ⟨h1, h2⟩ := ih
    unfold countInit at h1
    unfold countFinalize at h2
    unfold countInit countFinalize
    simp only [List.map_cons, List.countP_cons]
    exact ⟨by simp [h1], by simp [h2]⟩

theorem WriterOpen.counts {log : List WriterCall} (h : WriterOpen log) :
    countInit log = 1 ∧ countFinalize log = 0 := by
  obtain ⟨c, k, l, path, w, hh, fps, col, frames, rfl⟩ := h
  obtain ⟨h1, h2⟩ := countInit_encodes frames
  unfold countInit at h1
  unfold countFinalize at h2
  unfold countInit countFinalize
  rw [List.countP_append, List.countP_append, h1, h2]
  exact ⟨by simp [List.countP_cons], by simp [List.countP_cons]⟩

theorem WriterOpen.counts_finalized {log : List WriterCall} (h : WriterOpen log) :
    countInit (log ++ [WriterCall.finalize]) = 1 ∧
      countFinalize (log ++ [WriterCall.finalize]) = 1 := by
  obtain ⟨h1, h2⟩ := h.counts
  unfold countInit at h1
  unfold countFinalize at h2
  unfold countInit countFinalize
  rw [List.countP_append, List.countP_append, h1, h2]
  exact ⟨by simp [List.countP_cons], by simp [List.countP_cons]⟩

theorem WriterOpen.snoc {log : List WriterCall} (h : WriterOpen log) (f : Mat) :
    WriterOpen (log ++ [WriterCall.encodeFrame f]) := by
  obtain ⟨c, k, l, path, w, hh, fps, col, frames, rfl⟩ := h
  exact ⟨c, k, l, path, w, hh, fps, col, frames ++ [f], by simp⟩

theorem captureStep_shape (o : Capture) (s : MiniScope) (t : CaptureThread)
    (ht : s.d.thread = some t) (h : WriterShape t) :
    ∃ t', (captureStep o s).d.thread = some t' ∧ WriterShape t' := by
  obtain ⟨t', ht', hcases⟩ := captureStep_thread o s t ht
  refine ⟨t', ht', ?_⟩
  unfold WriterShape at h ⊢
  rcases hcases with ⟨hpc, hpc', hw⟩ | ⟨hpc, hpc', f, hw⟩ | ⟨hpc, hpc', hw⟩ | ⟨hpc, hpc', hw⟩ |
    ⟨hpc, hpc', _, f, hw⟩ | ⟨hpc, rfl⟩
  · rw [hpc] at h
    rw [hpc']
    exact Or.inl (hw.trans h)
  · rw [hpc']
    exact ⟨_, _, _, _, _, _, _, _, [], by rw [hw]; rfl⟩
  · rw [hpc] at h
    rw [hpc']
    exact Or.inr ⟨t.vwriter, h, hw⟩
  · rw [hpc] at h
    rw [hpc', hw]
    exact h
  · rw [hpc] at h
    rw [hpc', hw]
    exact h.snoc f
  · exact h

theorem captureSteps_shape (os : List Capture) (s : MiniScope) (t : CaptureThread)
    (ht : s.d.thread = some t) (h : WriterShape t) :
    ∃ t', (captureSteps os s).d.thread = some t' ∧ WriterShape t' := by
  induction os generalizing s t with
  | nil => exact ⟨t, ht, h⟩
  | cons o os ih =>
    obtain ⟨t₁, ht₁, h₁⟩ := captureStep_shape o s t ht h
    exact ih (captureStep o s) t₁ ht₁ h₁

theorem captureSteps_colorless (os : List Capture) (s : MiniScope) (t : CaptureThread)
    (ht : s.d.thread = some t) (hcc : s.d.colorCheck = false)
    (henc : encodedFrames t.vwriter = []) :
    threadEncoded (captureSteps os s) = some [] := by
  induction os generalizing s t with
  | nil => simp [captureSteps, threadEncoded, ht, henc]
  | cons o os ih =>
    obtain ⟨t', ht', hcases⟩ := captureStep_thread o s t ht
    have hcc' : (captureStep o s).d.colorCheck = false := by
      rw [(captureStep_keeps o s).2.1]; exact hcc
    refine ih (captureStep o s) t' ht' hcc' ?_
    rcases hcases with ⟨_, _, hw⟩ | ⟨_, _, f, hw⟩ | ⟨_, _, hw⟩ | ⟨_, _, hw⟩ |
      ⟨_, _, htrue, _⟩ | ⟨_, rfl⟩
    · rw [hw]; exact henc
    · rw [hw]; rfl
    · rw [hw, encodedFrames_finalize]; exact henc
    · rw [hw]; exact henc
    · rw [hcc] at htrue; exact absurd htrue (by simp)
    · exact henc

/-- A capture thread that finds `running` clear has returned after two
steps, whatever the camera answers. -/
theorem two_steps_finish (o o' : Capture) (s : MiniScope) (t : CaptureThread)
    (ht : s.d.thread = some t) (hrun : s.d.running = false) :
    threadPc (captureStep o' (captureStep o s)) = some CapturePc.done := by
  have hrun' : (captureStep o s).d.running = false := by
    rcases (captureStep_settled o s).2 with ⟨h, _⟩ | ⟨h, _⟩
    · exact h.trans hrun
    · exact h
  obtain ⟨t', ht', hcases⟩ := captureStep_thread o s t ht
  have hdone : t'.pc = CapturePc.done → threadPc (captureStep o' (captureStep o s)) =
      some CapturePc.done := by
    intro hpc'
    rw [captureStep_of_done o' _ (by simp [threadPc, ht', hpc'])]
    simp [threadPc, ht', hpc']
  have hloop : t'.pc = CapturePc.loop → threadPc (captureStep o' (captureStep o s)) =
      some CapturePc.done := by
    intro hpc'
    rw [captureStep_exit o' _ t' ht' hpc' hrun']
    simp [threadPc, setThread]
  rcases hcases with ⟨_, hpc', _⟩ | ⟨_, hpc', _⟩ | ⟨_, hpc', _⟩ | ⟨hpc, _, _⟩ |
    ⟨hpc, _, _⟩ | ⟨hpc, rfl⟩
  · exact hdone hpc'
  · exact hloop hpc'
  · exact hdone hpc'
  · rw [captureStep_exit o s t ht hpc hrun]
    rw [captureStep_of_done o' _ (by simp [threadPc, setThread])]
    simp [threadPc, setThread]
  · rw [captureStep_exit o s t ht hpc hrun]
    rw [captureStep_of_done o' _ (by simp [threadPc, setThread])]
    simp [threadPc, setThread]
  · exact hdone hpc

/-! ### Dropped frames -/

theorem Kept.same (s : MiniScope) : Kept s s := ⟨id, id⟩

theorem Kept.chain {a b c : MiniScope} (h₁ : Kept a b) (h₂ : Kept b c) : Kept a c :=
  ⟨fun h => h₂.1 (h₁.1 h), fun h => h₂.2 (h₁.2 h)⟩

theorem SameThreads.counted {s t : MiniScope} (h : SameThreads s t) (hs : ThreadsCounted s) :
    ThreadsCounted t := by
  obtain ⟨h1, h2, h3⟩ := h
  unfold ThreadsCounted at hs ⊢
  rw [h1, h2, h3]
  exact hs

theorem captureStep_kept (o : Capture) (s : MiniScope) : Kept s (captureStep o s) :=
  ⟨(captureStep_keeps o s).2.2.2.2.2, fun h => (captureStep_settled o s).1.trans h⟩

theorem captureStep_counted (o : Capture) (s : MiniScope) (h : ThreadsCounted s) :
    ThreadsCounted (captureStep o s) := by
  obtain ⟨h1, _, _, h2, h3, _⟩ := captureStep_keeps o s
  unfold ThreadsCounted at h ⊢
  rw [h1, h2, h3]
  exact h

theorem join_facts (o : Capture) (s : MiniScope) :
    Kept s (join o s) ∧ (join o s).d.thread.isSome = s.d.thread.isSome ∧
      (join o s).spawned = s.spawned ∧ (join o s).joined = s.joined + 1 := by
  obtain ⟨a1, _, _, a2, a3, _⟩ := captureStep_keeps o s
  obtain ⟨b1, _, _, b2, b3, _⟩ := captureStep_keeps o (captureStep o s)
  refine ⟨?_, ?_, ?_, ?_⟩
  · exact Kept.chain (captureStep_kept o s) (captureStep_kept o (captureStep o s))
  · exact b1.trans a1
  · exact b2.trans a2
  · show (captureStep o (captureStep o s)).joined + 1 = s.joined + 1
    rw [b3, a3]

theorem finishCaptureThread_facts (o : Capture) (s : MiniScope) :
    Kept s (finishCaptureThread o s) ∧ (finishCaptureThread o s).d.thread = none ∧
      (finishCaptureThread o s).spawned = s.spawned ∧
      (finishCaptureThread o s).joined =
        s.joined + (if s.d.thread.isSome = true then 1 else 0) := by
  unfold finishCaptureThread
  cases ht : s.d.thread with
  | none => exact ⟨Kept.same s, ht, rfl, by simp⟩
  | some t =>
    obtain ⟨hk, _, hs, hj⟩ := join_facts o { s with d := { s.d with running := false } }
    exact ⟨⟨fun h => hk.1 h, fun h => hk.2 h⟩, rfl, hs, by simpa using hj⟩

theorem finishCaptureThread_counted (o : Capture) (s : MiniScope) (h : ThreadsCounted s) :
    ThreadsCounted (finishCaptureThread o s) := by
  obtain ⟨_, h1, h2, h3⟩ := finishCaptureThread_facts o s
  unfold ThreadsCounted at h ⊢
  rw [h1, h2, h3, h]
  simp

theorem startCaptureThread_facts (o : Capture) (s : MiniScope) :
    Kept s (startCaptureThread o s) ∧
      (startCaptureThread o s).d.thread =
        some { pc := CapturePc.entry, frame := Mat.empty, vwriter := [] } ∧
      (startCaptureThread o s).spawned = s.spawned + 1 ∧
      (startCaptureThread o s).joined =
        s.joined + (if s.d.thread.isSome = true then 1 else 0) := by
  obtain ⟨hk, _, h2, h3⟩ := finishCaptureThread_facts o s
  unfold startCaptureThread
  exact ⟨⟨fun h => hk.1 h, fun h => hk.2 h⟩, rfl, by simp [h2], h3⟩

theorem startCaptureThread_counted (o : Capture) (s : MiniScope) (h : ThreadsCounted s) :
    ThreadsCounted (startCaptureThread o s) := by
  obtain ⟨_, h1, h2, h3⟩ := startCaptureThread_facts o s
  unfold ThreadsCounted at h ⊢
  rw [h1, h2, h3, h]
  simp

theorem stop_facts (o : Capture) (s : MiniScope) :
    Kept s (stop o s) ∧ (stop o s).d.thread = none ∧ (stop o s).spawned = s.spawned ∧
      (stop o s).joined = s.joined + (if s.d.thread.isSome = true then 1 else 0) := by
  obtain ⟨hk, h1, h2, h3⟩ := finishCaptureThread_facts o
    { s with d := { s.d with running := false, recording := false } }
  unfold stop
  exact ⟨⟨fun h => hk.1 h, fun h => hk.2 h⟩, h1, h2, h3⟩

theorem disconnect_facts (o : Capture) (s : MiniScope) :
    Kept s (disconnect o s) ∧ (disconnect o s).d.thread = none ∧
      (disconnect o s).spawned = s.spawned ∧
      (disconnect o s).joined = s.joined + (if s.d.thread.isSome = true then 1 else 0) := by
  obtain ⟨hk, h1, h2, h3⟩ := stop_facts o s
  unfold disconnect
  refine ⟨⟨fun h => ?_, fun h => ?_⟩, ?_, ?_, ?_⟩
  · simpa [camCall] using hk.1 h
  · simpa [camCall] using hk.2 h
  · simpa [camCall] using h1
  · simpa [camCall] using h2
  · simpa [camCall] using h3

theorem connect_facts (opened : Bool) (s : MiniScope) :
    Kept s (connect opened s).2 ∧ SameThreads s (connect opened s).2 := by
  unfold connect
  split
  · exact ⟨⟨id, id⟩, rfl, rfl, rfl⟩
  · simp only [setLed, setExcitation, setGain, setExposure]
    refine ⟨⟨fun h => ?_, fun _ => ?_⟩, ?_, ?_, ?_⟩ <;> simp_all

theorem stop_counted (o : Capture) (s : MiniScope) (h : ThreadsCounted s) :
    ThreadsCounted (stop o s) := by
  obtain ⟨_, h1, h2, h3⟩ := stop_facts o s
  unfold ThreadsCounted at h ⊢
  rw [h1, h2, h3, h]
  simp

theorem disconnect_counted (o : Capture) (s : MiniScope) (h : ThreadsCounted s) :
    ThreadsCounted (disconnect o s) := by
  obtain ⟨_, h1, h2, h3⟩ := disconnect_facts o s
  unfold ThreadsCounted at h ⊢
  rw [h1, h2, h3, h]
  simp

theorem emitMessage_facts (msg : String) (s : MiniScope) :
    Kept s (emitMessage msg s) ∧ SameThreads s (emitMessage msg s) :=
  ⟨⟨fun h => by simpa using h, fun h => by simpa using h⟩, by simp, by simp, by simp⟩

theorem run_facts (opened : Bool) (o : Capture) (s : MiniScope) :
    Kept s (run opened o s).2 ∧ (ThreadsCounted s → ThreadsCounted (run opened o s).2) := by
  unfold run
  by_cases hconn : s.d.connected = false
  · rw [if_pos hconn]
    exact ⟨Kept.same s, id⟩
  · rw [if_neg hconn]
    simp only []
    have hr : Kept s (if s.d.failed = true then
          connect opened
            (disconnect o (emitMessage "Reconnecting to recover from previous failure." s))
        else (true, s)).2 ∧
        (ThreadsCounted s → ThreadsCounted (if s.d.failed = true then
          connect opened
            (disconnect o (emitMessage "Reconnecting to recover from previous failure." s))
        else (true, s)).2) := by
      split
      · obtain ⟨k1, t1⟩ := emitMessage_facts "Reconnecting to recover from previous failure." s
        obtain ⟨k2, _⟩ := disconnect_facts o
          (emitMessage "Reconnecting to recover from previous failure." s)
        obtain ⟨k3, t3⟩ := connect_facts opened
          (disconnect o (emitMessage "Reconnecting to recover from previous failure." s))
        exact ⟨Kept.chain k1 (Kept.chain k2 k3),
          fun h => t3.counted (disconnect_counted o _ (t1.counted h))⟩
      · exact ⟨Kept.same s, id⟩
    generalize (if s.d.failed = true then
        connect opened
          (disconnect o (emitMessage "Reconnecting to recover from previous failure." s))
      else (true, s)) = r at hr ⊢
    by_cases h1 : r.1 = false
    · rw [if_pos h1]
      exact hr
    · rw [if_neg h1]
      exact ⟨Kept.chain hr.1 (startCaptureThread_facts o r.2).1,
        fun h => startCaptureThread_counted o r.2 (hr.2 h)⟩

theorem startRecording_facts (now : Nat) (opened : Bool) (o : Capture) (s : MiniScope) :
    Kept s (startRecording now opened o s).2 ∧
      (ThreadsCounted s → ThreadsCounted (startRecording now opened o s).2) := by
  unfold startRecording
  by_cases hconn : s.d.connected = false
  · rw [if_pos hconn]
    exact ⟨Kept.same s, id⟩
  · rw [if_neg hconn]
    simp only []
    have hr : Kept s (if s.d.running = false then run opened o s else (true, s)).2 ∧
        (ThreadsCounted s →
          ThreadsCounted (if s.d.running = false then run opened o s else (true, s)).2) := by
      split
      · exact run_facts opened o s
      · exact ⟨Kept.same s, id⟩
    generalize (if s.d.running = false then run opened o s else (true, s)) = r at hr ⊢
    by_cases h1 : r.1 = false
    · rw [if_pos h1]
      exact hr
    · rw [if_neg h1]
      exact ⟨⟨fun h => hr.1.1 h, fun h => hr.1.2 h⟩, fun h => hr.2 h⟩

theorem apply_facts (op : Op) (s : MiniScope) :
    Kept s (op.apply s) ∧ (ThreadsCounted s → ThreadsCounted (op.apply s)) := by
  cases op with
  | connect opened =>
    exact ⟨(connect_facts opened s).1, fun h => (connect_facts opened s).2.counted h⟩
  | disconnect o => exact ⟨(disconnect_facts o s).1, disconnect_counted o s⟩
  | run opened o => exact run_facts opened o s
  | stop o => exact ⟨(stop_facts o s).1, stop_counted o s⟩
  | startRecording now opened o => exact startRecording_facts now opened o s
  | stopRecording => exact ⟨⟨id, id⟩, id⟩
  | setScopeCamId camId => exact ⟨⟨id, id⟩, id⟩
  | setExposure value => exact ⟨⟨id, id⟩, id⟩
  | setGain value => exact ⟨⟨id, id⟩, id⟩
  | setExcitation value =>
    have e : (setExcitation value s).d.connected = s.d.connected ∧
        (setExcitation value s).d.failed = s.d.failed ∧
        SameThreads s (setExcitation value s) := by
      unfold setExcitation setLed
      simp only []
      split <;> exact ⟨rfl, rfl, rfl, rfl, rfl⟩
    exact ⟨⟨fun h => e.2.1.trans h, fun h => e.1.trans h⟩, fun h => e.2.2.counted h⟩
  | setOnMessage => exact ⟨⟨id, id⟩, id⟩
  | setVideoCodec codec => exact ⟨⟨id, id⟩, id⟩
  | setVideoContainer container => exact ⟨⟨id, id⟩, id⟩
  | setRecordLossless lossless => exact ⟨⟨id, id⟩, id⟩
  | currentFrame =>
    have e : (currentFrame s).2.d.connected = s.d.connected ∧
        (currentFrame s).2.d.failed = s.d.failed ∧ SameThreads s (currentFrame s).2 := by
      unfold currentFrame
      split <;> exact ⟨rfl, rfl, rfl, rfl, rfl⟩
    exact ⟨⟨fun h => e.2.1.trans h, fun h => e.1.trans h⟩, fun h => e.2.2.counted h⟩
  | captureStep o => exact ⟨captureStep_kept o s, captureStep_counted o s⟩

theorem runOps_facts (ops : List Op) (s : MiniScope) :
    Kept s (runOps ops s) ∧ (ThreadsCounted s → ThreadsCounted (runOps ops s)) := by
  induction ops generalizing s with
  | nil => exact ⟨Kept.same s, id⟩
  | cons op ops ih =>
    obtain ⟨h1, h2⟩ := apply_facts op s
    obtain ⟨k1, k2⟩ := ih (op.apply s)
    exact ⟨Kept.chain h1 k1, fun h => k2 (h2 h)⟩

/-- Rounds of the loop in which every grab succeeds: while the count of
retrieves without a frame stays at or below 80 the loop goes on, whatever
the order of delivered and lost frames. -/
theorem captureSteps_rounds (rs : List Capture) (s : MiniScope) (t : CaptureThread)
    (ht : s.d.thread = some t) (hpc : t.pc = CapturePc.loop) (hrun : s.d.running = true)
    (hgrab : ∀ o ∈ rs, o ≠ Capture.grabFailed)
    (hle : s.d.droppedFramesCount + rs.countP Capture.isDrop ≤ 80) :
    threadPc (captureSteps rs s) = some CapturePc.loop ∧
      (captureSteps rs s).d.droppedFramesCount =
        s.d.droppedFramesCount + rs.countP Capture.isDrop ∧
      (captureSteps rs s).d.running = true ∧
      (captureSteps rs s).d.failed = s.d.failed := by
  induction rs generalizing s t with
  | nil => exact ⟨by simp [captureSteps, threadPc, ht, hpc], by simp [captureSteps], hrun, rfl⟩
  | cons o rs ih =>
    have hgrab' : ∀ o' ∈ rs, o' ≠ Capture.grabFailed :=
      fun o' ho' => hgrab o' (List.mem_cons_of_mem _ ho')
    have ho : o ≠ Capture.grabFailed := hgrab o (List.mem_cons_self _ _)
    rw [List.countP_cons] at hle ⊢
    show threadPc (captureSteps rs (captureStep o s)) = _ ∧
      (captureSteps rs (captureStep o s)).d.droppedFramesCount = _ ∧
      (captureSteps rs (captureStep o s)).d.running = _ ∧
      (captureSteps rs (captureStep o s)).d.failed = _
    rcases o with _ | r
    · exact absurd rfl ho
    · rcases r with ⟨f, a, b⟩ | _ | w
      · obtain ⟨⟨t', ht', hpc'⟩, hc, hr, hf⟩ := captureStep_good (f, a, b) s t ht hpc hrun
        have hstep : captureStep (Capture.grabbed (Retrieve.ok f a b)) s =
            captureStep (Capture.good (f, a, b)) s := rfl
        rw [hstep]
        simp only [Capture.isDrop] at hle ⊢
        obtain ⟨k1, k2, k3, k4⟩ := ih (captureStep (Capture.good (f, a, b)) s) t' ht' hpc' hr
          hgrab' (by rw [hc]; simpa using hle)
        exact ⟨k1, by rw [k2, hc]; simp, k3, k4.trans hf⟩
      · obtain ⟨h1, h2, h3, h4⟩ := captureStep_drop none s t ht hpc hrun
        have hstep : captureStep (Capture.grabbed Retrieve.failed) s =
            captureStep (Capture.drop none) s := rfl
        rw [hstep]
        simp only [Capture.isDrop] at hle ⊢
        have hmod : (s.d.droppedFramesCount + 1) % SIZE_MODULUS = s.d.droppedFramesCount + 1 := by
          unfold SIZE_MODULUS; simp at hle; omega
        rw [hmod] at h2 h3 h4
        rw [if_neg (by simp at hle; omega)] at h3 h4
        obtain ⟨k1, k2, k3, k4⟩ := ih (captureStep (Capture.drop none) s) t h1 hpc h3
          hgrab' (by rw [h2]; simp at hle; omega)
        exact ⟨k1, by rw [k2, h2]; simp; omega, k3, k4.trans h4⟩
      · obtain ⟨h1, h2, h3, h4⟩ := captureStep_drop (some w) s t ht hpc hrun
        have hstep : captureStep (Capture.grabbed (Retrieve.threw w)) s =
            captureStep (Capture.drop (some w)) s := rfl
        rw [hstep]
        simp only [Capture.isDrop] at hle ⊢
        have hmod : (s.d.droppedFramesCount + 1) % SIZE_MODULUS = s.d.droppedFramesCount + 1 := by
          unfold SIZE_MODULUS; simp at hle; omega
        rw [hmod] at h2 h3 h4
        rw [if_neg (by simp at hle; omega)] at h3 h4
        obtain ⟨k1, k2, k3, k4⟩ := ih (captureStep (Capture.drop (some w)) s) t h1 hpc h3
          hgrab' (by rw [h2]; simp at hle; omega)
        exact ⟨k1, by rw [k2, h2]; simp; omega, k3, k4.trans h4⟩

/-- A session whose first frame arrives and whose later grabs all succeed
runs while it has lost at most 80 frames and ends at the 81st. -/
theorem session_gives_up_at_81st_drop (s : MiniScope) (t : CaptureThread)
    (ht : s.d.thread = some t) (hpc : t.pc = CapturePc.entry)
    (hrun : s.d.running = true) (hfailed : s.d.failed = false)
    (first : Mat × ℚ × ℚ) (rs : List Capture) (hgrab : ∀ o ∈ rs, o ≠ Capture.grabFailed) :
    (rs.countP Capture.isDrop ≤ 80 →
        (captureSteps (Capture.good first :: rs) s).d.running = true ∧
          (captureSteps (Capture.good first :: rs) s).d.failed = false ∧
          threadPc (captureSteps (Capture.good first :: rs) s) = some CapturePc.loop ∧
          (captureSteps (Capture.good first :: rs) s).d.droppedFramesCount =
            rs.countP Capture.isDrop) ∧
      (rs.countP Capture.isDrop = 80 → ∀ w,
        (captureSteps (Capture.good first :: (rs ++ [Capture.drop w])) s).d.failed = true ∧
          (captureSteps (Capture.good first :: (rs ++ [Capture.drop w])) s).d.running = false ∧
          (captureSteps (Capture.good first :: (rs ++ [Capture.drop w])) s).d.droppedFramesCount =
            81 ∧
          ∀ o : Capture, threadPc (captureStep o
            (captureSteps (Capture.good first :: (rs ++ [Capture.drop w])) s)) =
            some CapturePc.done) := by
  obtain ⟨⟨t₁, ht₁, hpc₁⟩, hc₁, hr₁, hf₁⟩ := captureStep_entry_good first s t ht hpc
  have key : rs.countP Capture.isDrop ≤ 80 →
      threadPc (captureSteps rs (captureStep (Capture.good first) s)) = some CapturePc.loop ∧
        (captureSteps rs (captureStep (Capture.good first) s)).d.droppedFramesCount =
          rs.countP Capture.isDrop ∧
        (captureSteps rs (captureStep (Capture.good first) s)).d.running = true ∧
        (captureSteps rs (captureStep (Capture.good first) s)).d.failed = false := by
    intro hle
    obtain ⟨k1, k2, k3, k4⟩ := captureSteps_rounds rs (captureStep (Capture.good first) s) t₁
      ht₁ hpc₁ (hr₁.trans hrun) hgrab (by rw [hc₁]; omega)
    exact ⟨k1, by rw [k2, hc₁, Nat.zero_add], k3, k4.trans (hf₁.trans hfailed)⟩
  constructor
  · intro hle
    obtain ⟨k1, k2, k3, k4⟩ := key hle
    exact ⟨k3, k4, k1, k2⟩
  · intro h80 w
    obtain ⟨k1, k2, k3, k4⟩ := key (by omega)
    show (captureSteps (rs ++ [Capture.drop w]) (captureStep (Capture.good first) s)).d.failed =
        true ∧
      (captureSteps (rs ++ [Capture.drop w]) (captureStep (Capture.good first) s)).d.running =
        false ∧
      (captureSteps (rs ++ [Capture.drop w])
        (captureStep (Capture.good first) s)).d.droppedFramesCount = 81 ∧
      ∀ o : Capture, threadPc (captureStep o
        (captureSteps (rs ++ [Capture.drop w]) (captureStep (Capture.good first) s))) =
        some CapturePc.done
    rw [captureSteps_append]
    generalize captureSteps rs (captureStep (Capture.good first) s) = s₁ at k1 k2 k3 k4 ⊢
    show (captureStep (Capture.drop w) s₁).d.failed = true ∧
      (captureStep (Capture.drop w) s₁).d.running = false ∧
      (captureStep (Capture.drop w) s₁).d.droppedFramesCount = 81 ∧
      ∀ o : Capture, threadPc (captureStep o (captureStep (Capture.drop w) s₁)) =
        some CapturePc.done
    cases hth : s₁.d.thread with
    | none => simp [threadPc, hth] at k1
    | some t₂ =>
      have hpc₂ : t₂.pc = CapturePc.loop := by simpa [threadPc, hth] using k1
      obtain ⟨d1, d2, d3, d4⟩ := captureStep_drop w s₁ t₂ hth hpc₂ k3
      have hgt : (s₁.d.droppedFramesCount + 1) % SIZE_MODULUS > 80 := by
        rw [k2, h80]; decide
      have h81 : (s₁.d.droppedFramesCount + 1) % SIZE_MODULUS = 81 := by
        rw [k2, h80]; decide
      rw [if_pos hgt] at d3 d4
      refine ⟨d4, d3, d2.trans h81, fun o => ?_⟩
      rw [captureStep_exit o _ t₂ d1 hpc₂ d3]
      rfl


/-! ### The frame ring -/

theorem ring_after_pushes (u : MiniScopeData) (frames : List Mat) :
    (frames.foldl (fun s f => addFrameToBuffer f s) (MiniScope.new u)).d.frameRing.capacity = 64 ∧
      (frames.foldl (fun s f => addFrameToBuffer f s) (MiniScope.new u)).d.frameRing.items =
        frames.drop (frames.length - 64) := by
  induction frames using List.reverseRecOn with
  | nil => exact ⟨rfl, rfl⟩
  | append_singleton fs x ih =>
    obtain ⟨hcap, hitems⟩ := ih
    rw [List.foldl_append]
    simp only [List.foldl_cons, List.foldl_nil, addFrameToBuffer]
    have h := CircularBuffer.push_back_items x _ fs (by rw [hcap]; decide) (by rw [hcap]; exact hitems)
    rw [hcap] at h
    exact ⟨h.2, h.1⟩

/-- C1: after pushing any `n` frames with `addFrameToBuffer` onto the ring of
a freshly constructed controller, with no pop in between, the ring holds the
last `min n 64` of them, in the order pushed. -/
theorem addFrameToBuffer_keeps_most_recent (u : MiniScopeData) (frames : List Mat) :
    (frames.foldl (fun s f => addFrameToBuffer f s) (MiniScope.new u)).d.frameRing.items =
        frames.drop (frames.length - min frames.length 64) ∧
      (frames.foldl (fun s f => addFrameToBuffer f s) (MiniScope.new u)).d.frameRing.items.length =
        min frames.length 64 := by
  have h := (ring_after_pushes u frames).2
  have e : frames.length - min frames.length 64 = frames.length - 64 := by omega
  rw [e, h, List.length_drop]
  exact ⟨rfl, by omega⟩

/-- C2: `currentFrame` on an empty ring returns the empty image and changes
nothing; on a ring holding `f` followed by `rest` it returns `f` and leaves
exactly `rest` in the ring, the controller being otherwise unchanged. -/
theorem currentFrame_pops_oldest (s : MiniScope) :
    currentFrame s =
      match s.d.frameRing.items with
      | [] => (Mat.empty, s)
      | f :: rest =>
        (f, { s with d := { s.d with frameRing := { s.d.frameRing with items := rest } } }) := by
  unfold currentFrame CircularBuffer.size CircularBuffer.front CircularBuffer.pop_front
  cases h : s.d.frameRing.items with
  | nil => simp
  | cons f rest => simp

/-- C3: in every state reached from a freshly constructed controller by any
history of calls (`connect`, `disconnect`, `run`, `stop`, `startRecording`,
`stopRecording`, the setters, `currentFrame`) and steps of the capture thread
(a failing step included), `recording` implies `running` and `running`
implies `connected`. -/
theorem reachable_flags_ordered (u : MiniScopeData) (ops : List Op) :
    ((runOps ops (MiniScope.new u)).d.recording = true →
        (runOps ops (MiniScope.new u)).d.running = true) ∧
      ((runOps ops (MiniScope.new u)).d.running = true →
        (runOps ops (MiniScope.new u)).d.connected = true) :=
  runOps_ordered ops (MiniScope.new u) ⟨fun h => absurd h (by simp [MiniScope.new]),
    fun h => absurd h (by simp [MiniScope.new])⟩

/-- C5 as stated fails: the count of dropped frames is not reset by a
delivered frame.  In a fresh session whose first frame arrives, then one
retrieve fails, one frame arrives, and 80 retrieves fail in a row (every
grab succeeding), the controller has `failed` set and `running` clear after
those 80 consecutive failures. -/
theorem capture_gives_up_after_80_consecutive_drops :
    freshSession.d.running = true ∧ freshSession.d.failed = false ∧
      (captureSteps (Capture.good sampleFrame :: Capture.drop none :: Capture.good sampleFrame ::
        List.replicate 80 (Capture.drop none)) freshSession).d.failed = true ∧
      (captureSteps (Capture.good sampleFrame :: Capture.drop none :: Capture.good sampleFrame ::
        List.replicate 80 (Capture.drop none)) freshSession).d.running = false ∧
      (captureSteps (Capture.good sampleFrame :: Capture.drop none :: Capture.good sampleFrame ::
        List.replicate 80 (Capture.drop none)) freshSession).d.droppedFramesCount = 81 := by
  have e : Capture.good sampleFrame :: Capture.drop none :: Capture.good sampleFrame ::
        List.replicate 80 (Capture.drop none) =
      Capture.good sampleFrame ::
        ((Capture.drop none :: Capture.good sampleFrame ::
          List.replicate 79 (Capture.drop none)) ++ [Capture.drop none]) := by
    rw [show (80 : Nat) = 79 + 1 from rfl, List.replicate_succ']
    rfl
  have h := (session_gives_up_at_81st_drop freshSession
    { pc := CapturePc.entry, frame := Mat.empty, vwriter := [] } rfl rfl (by decide) (by decide)
    sampleFrame
    (Capture.drop none :: Capture.good sampleFrame :: List.replicate 79 (Capture.drop none))
    (by decide)).2 (by decide) none
  rw [e]
  exact ⟨by decide, by decide, h.1, h.2.1, h.2.2.1⟩

/-- C5, amended: in a capture session whose initial grab and retrieve
succeed and whose later grabs all succeed, started with `running` set and
`failed` clear, the retrieves without a frame are counted over the whole
session, consecutive or not.  While the rounds `rs` met in the loop hold at
most 80 of them, the controller has `running` set, `failed` clear and the
thread in its loop; the 81st of them, whenever it comes, leaves `failed`
set and `running` clear, and the next step of the thread leaves the loop
and returns. -/
theorem capture_gives_up_at_81st_drop (s : MiniScope) (t : CaptureThread)
    (ht : s.d.thread = some t) (hpc : t.pc = CapturePc.entry)
    (hrun : s.d.running = true) (hfailed : s.d.failed = false)
    (first : Mat × ℚ × ℚ) (rs : List Capture) (hgrab : ∀ o ∈ rs, o ≠ Capture.grabFailed) :
    (rs.countP Capture.isDrop ≤ 80 →
        (captureSteps (Capture.good first :: rs) s).d.running = true ∧
          (captureSteps (Capture.good first :: rs) s).d.failed = false ∧
          threadPc (captureSteps (Capture.good first :: rs) s) = some CapturePc.loop ∧
          (captureSteps (Capture.good first :: rs) s).d.droppedFramesCount =
            rs.countP Capture.isDrop) ∧
      (rs.countP Capture.isDrop = 80 → ∀ w,
        (captureSteps (Capture.good first :: (rs ++ [Capture.drop w])) s).d.failed = true ∧
          (captureSteps (Capture.good first :: (rs ++ [Capture.drop w])) s).d.running = false ∧
          (captureSteps (Capture.good first :: (rs ++ [Capture.drop w])) s).d.droppedFramesCount =
            81 ∧
          ∀ o : Capture, threadPc (captureStep o
            (captureSteps (Capture.good first :: (rs ++ [Capture.drop w])) s)) =
            some CapturePc.done) :=
  session_gives_up_at_81st_drop s t ht hpc hrun hfailed first rs hgrab

/-- Witness for C5, amended: a fresh session whose first frame arrives, then
a lost frame, a delivered frame and 79 lost frames still runs; one more lost
frame, the 81st, ends it. -/
theorem capture_gives_up_at_81st_drop_witness :
    freshSession.d.running = true ∧ freshSession.d.failed = false ∧
      (captureSteps (Capture.good sampleFrame ::
        (Capture.drop none :: Capture.good sampleFrame ::
          List.replicate 79 (Capture.drop none))) freshSession).d.running = true ∧
      (captureSteps (Capture.good sampleFrame ::
        ((Capture.drop none :: Capture.good sampleFrame ::
          List.replicate 79 (Capture.drop none)) ++ [Capture.drop none]))
        freshSession).d.failed = true :=
  ⟨by decide, by decide,
    ((capture_gives_up_at_81st_drop freshSession
      { pc := CapturePc.entry, frame := Mat.empty, vwriter := [] } rfl rfl (by decide) (by decide)
      sampleFrame
      (Capture.drop none :: Capture.good sampleFrame :: List.replicate 79 (Capture.drop none))
      (by decide)).1 (by decide)).1,
    ((capture_gives_up_at_81st_drop freshSession
      { pc := CapturePc.entry, frame := Mat.empty, vwriter := [] } rfl rfl (by decide) (by decide)
      sampleFrame
      (Capture.drop none :: Capture.good sampleFrame :: List.replicate 79 (Capture.drop none))
      (by decide)).2 (by decide) none).1⟩

/-- C4 (the code departs from it): a connected controller is still
`connected` after `disconnect`, and a `connect` issued right after is turned
down as already connected. -/
theorem disconnect_leaves_connected :
    (disconnect Capture.grabFailed (connect true (MiniScope.new blank)).2).d.connected = true ∧
      (disconnect Capture.grabFailed (connect true (MiniScope.new blank)).2).d.running = false ∧
      (disconnect Capture.grabFailed (connect true (MiniScope.new blank)).2).d.recording = false ∧
      (connect true (disconnect Capture.grabFailed (connect true (MiniScope.new blank)).2)).1 =
        false := by
  decide

/-- C6 (the code departs from it): `run` on a connected controller whose
session has failed releases the camera but never opens it again, whatever
the camera would answer; it returns false and leaves `connected` and
`failed` set, `running` clear and no new capture thread. -/
theorem run_after_failure_does_not_reopen (opened : Bool) (o : Capture) :
    failedSession.d.connected = true ∧ failedSession.d.failed = true ∧
      (run opened o failedSession).1 = false ∧
      (run opened o failedSession).2.d.cam = failedSession.d.cam ++ [CamCall.release] ∧
      (run opened o failedSession).2.d.connected = true ∧
      (run opened o failedSession).2.d.failed = true ∧
      (run opened o failedSession).2.d.running = false ∧
      (run opened o failedSession).2.d.thread = none ∧
      (run opened o failedSession).2.spawned = failedSession.spawned :=
  ⟨rfl, rfl, rfl, rfl, rfl, rfl, rfl, rfl, rfl⟩

/-- C8 (the code departs from it): on a controller that is not connected,
`connect` returns true and sets `connected` although the camera did not
open. -/
theorem connect_ignores_open_failure :
    (MiniScope.new blank).d.connected = false ∧
      (connect false (MiniScope.new blank)).1 = true ∧
      (connect false (MiniScope.new blank)).2.d.connected = true := by
  decide

/-- C10 (the code departs from it): `setExposure (-5)` stores `-5`, which
the getter `exposure` returns. -/
theorem setExposure_keeps_negative :
    exposure (setExposure (-5) (MiniScope.new blank)) = -5 := by
  decide

/-- C7: `startRecording` on a controller that is not connected returns
false and changes nothing.  On a connected controller that is not running it
returns what `run` returns: when `run` succeeds, the controller is the one
`run` leaves with the start time stored and `recording` set, and `running`
is set; when `run` fails, the controller is the one `run` leaves and
`recording` is clear.  On a connected controller that is running it returns
true and only stores the start time and sets `recording`: no capture thread
is created. -/
theorem startRecording_runs_first (now : Nat) (opened : Bool) (o : Capture) (s : MiniScope) :
    (s.d.connected = false → startRecording now opened o s = (false, s)) ∧
      (s.d.connected = true → s.d.running = false →
        (startRecording now opened o s).1 = (run opened o s).1 ∧
          ((run opened o s).1 = true →
            (startRecording now opened o s).2 =
                { (run opened o s).2 with
                  d := { (run opened o s).2.d with recordStart := now, recording := true } } ∧
              (startRecording now opened o s).2.d.recording = true ∧
              (startRecording now opened o s).2.d.running = true) ∧
          ((run opened o s).1 = false →
            (startRecording now opened o s).2 = (run opened o s).2 ∧
              (startRecording now opened o s).2.d.recording = false)) ∧
      (s.d.connected = true → s.d.running = true →
        startRecording now opened o s =
            (true, { s with d := { s.d with recordStart := now, recording := true } }) ∧
          (startRecording now opened o s).2.d.thread = s.d.thread ∧
          (startRecording now opened o s).2.spawned = s.spawned) := by
  refine ⟨fun hc => ?_, fun hc hr => ?_, fun hc hr => ?_⟩
  · unfold startRecording
    rw [if_pos hc]
  · have hrun := run_recording_of_fail opened o s hc
    have hrun' := run_running_of_ok opened o s
    unfold startRecording
    rw [if_neg (show ¬ s.d.connected = false by simp [hc]), if_pos hr]
    simp only []
    by_cases h : (run opened o s).1 = false
    · rw [if_pos h]
      exact ⟨h.symm, fun h' => absurd (h.symm.trans h') (by simp), fun _ => ⟨rfl, hrun h⟩⟩
    · rw [if_neg h]
      have ht : (run opened o s).1 = true := by simpa using h
      exact ⟨ht.symm, fun _ => ⟨rfl, rfl, hrun' ht⟩, fun h' => absurd h' h⟩
  · unfold startRecording
    rw [if_neg (show ¬ s.d.connected = false by simp [hc]),
      if_neg (show ¬ s.d.running = false by simp [hr])]
    exact ⟨rfl, rfl, rfl⟩

/-- Witness for C7: on a fresh controller that has connected, `startRecording`
calls `run`, which succeeds, and ends recording and running. -/
theorem startRecording_runs_first_witness :
    (connect true (MiniScope.new blank)).2.d.connected = true ∧
      (connect true (MiniScope.new blank)).2.d.running = false ∧
      (run true Capture.grabFailed (connect true (MiniScope.new blank)).2).1 = true ∧
      (startRecording 7 true Capture.grabFailed (connect true (MiniScope.new blank)).2).2.d.recording
        = true ∧
      (startRecording 7 true Capture.grabFailed (connect true (MiniScope.new blank)).2).2.d.running
        = true :=
  ⟨by decide, by decide, by decide,
    (((startRecording_runs_first 7 true Capture.grabFailed
      (connect true (MiniScope.new blank)).2).2.1 (by decide) (by decide)).2.1 (by decide)).2.1,
    (((startRecording_runs_first 7 true Capture.grabFailed
      (connect true (MiniScope.new blank)).2).2.1 (by decide) (by decide)).2.1 (by decide)).2.2⟩

/-- C9: after `connect` on a controller that is not connected, whatever was
stored before, the stored exposure is 100, the gain 32, the excitation 1 and
`connected` is set; the calls issued on the camera are the open, the sensor
set-up, brightness 100/100, gain 32/100 and one write of LED power (hue) 0, so
the last LED power written is 0. -/
theorem connect_applies_defaults (opened : Bool) (s : MiniScope) (h : s.d.connected = false) :
    (connect opened s).1 = true ∧
      (connect opened s).2.d.exposure = 100 ∧
      (connect opened s).2.d.gain = 32 ∧
      (connect opened s).2.d.excitation = 1 ∧
      (connect opened s).2.d.connected = true ∧
      (connect opened s).2.d.cam =
        s.d.cam ++ [CamCall.openCam s.d.scopeCamId, CamCall.setCmosSettings,
          CamCall.setBrightness (100 / 100), CamCall.setGain (32 / 100), CamCall.setHue 0] ∧
      lastHue (connect opened s).2.d.cam = some 0 := by
  have hcam : (connect opened s).2.d.cam =
      s.d.cam ++ [CamCall.openCam s.d.scopeCamId, CamCall.setCmosSettings,
        CamCall.setBrightness (100 / 100), CamCall.setGain (32 / 100), CamCall.setHue 0] := by
    simp [connect, h, setExposure, setGain, setExcitation, setLed]
  refine ⟨?_, ?_, ?_, ?_, ?_, hcam, ?_⟩
  · simp [connect, h]
  · simp [connect, h, setExposure, setGain, setExcitation, setLed]
  · simp [connect, h, setExposure, setGain, setExcitation, setLed]
  · simp [connect, h, setExposure, setGain, setExcitation, setLed]
  · simp [connect, h, setExposure, setGain, setExcitation, setLed]
  · rw [hcam]
    simp [lastHue, List.filterMap_append]

/-- Witness for C9: `connect` on a freshly constructed controller. -/
theorem connect_applies_defaults_witness :
    (MiniScope.new blank).d.connected = false ∧
      (connect true (MiniScope.new blank)).2.d.exposure = 100 ∧
      lastHue (connect true (MiniScope.new blank)).2.d.cam = some 0 :=
  ⟨rfl, (connect_applies_defaults true (MiniScope.new blank) rfl).2.1,
    (connect_applies_defaults true (MiniScope.new blank) rfl).2.2.2.2.2.2⟩

/-- C11: `setExposure` stores 1 for the argument 0, 100 for every argument
above 100, and the argument itself when it lies in 1..100; the value it
writes to the brightness property of the camera is the stored exposure
divided by 100. -/
theorem setExposure_clamps (value : Int) (s : MiniScope) :
    exposure (setExposure 0 s) = 1 ∧
      (100 < value → exposure (setExposure value s) = 100) ∧
      (1 ≤ value → value ≤ 100 → exposure (setExposure value s) = value) ∧
      (setExposure value s).d.cam =
        s.d.cam ++ [CamCall.setBrightness ((exposure (setExposure value s) : ℚ) / 100)] := by
  refine ⟨?_, fun h => ?_, fun h₁ h₂ => ?_, ?_⟩
  · simp [exposure, setExposure]
  · have h0 : value ≠ 0 := by omega
    simp [exposure, setExposure, h0, h]
  · have h0 : value ≠ 0 := by omega
    have h1 : ¬ 100 < value := by omega
    simp [exposure, setExposure, h0, h1]
  · simp [exposure, setExposure]

/-- Witness for C11: the arguments 150 and 50 on a freshly constructed
controller. -/
theorem setExposure_clamps_witness :
    exposure (setExposure 0 (MiniScope.new blank)) = 1 ∧
      exposure (setExposure 150 (MiniScope.new blank)) = 100 ∧
      exposure (setExposure 50 (MiniScope.new blank)) = 50 :=
  ⟨(setExposure_clamps 0 (MiniScope.new blank)).1,
    (setExposure_clamps 150 (MiniScope.new blank)).2.1 (by decide),
    (setExposure_clamps 50 (MiniScope.new blank)).2.2.1 (by decide) (by decide)⟩

/-- C12: on a connected controller `setExcitation value` issues one write of
the LED power (hue): `value / 200` for every `value` up to 100 (so for every
value in 0..100), and `1 / 2` for every `value` above 100; the power written
is never above `1 / 2`.  On a controller that is not connected it issues no
call on the camera. -/
theorem setExcitation_led_power (value : Int) (s : MiniScope) :
    (s.d.connected = true → value ≤ 100 →
        (setExcitation value s).d.cam = s.d.cam ++ [CamCall.setHue ((value : ℚ) / 200)]) ∧
      (s.d.connected = true → 100 < value →
        (setExcitation value s).d.cam = s.d.cam ++ [CamCall.setHue (1 / 2)]) ∧
      (s.d.connected = true →
        ∃ p : ℚ, (setExcitation value s).d.cam = s.d.cam ++ [CamCall.setHue p] ∧ p ≤ 1 / 2) ∧
      (s.d.connected = false → (setExcitation value s).d.cam = s.d.cam) := by
  have hle : s.d.connected = true → value ≤ 100 →
      (setExcitation value s).d.cam = s.d.cam ++ [CamCall.setHue ((value : ℚ) / 200)] := by
    intro hc hv
    have h1 : ¬ 100 < value := by omega
    simp only [setExcitation, setLed, gt_iff_lt, h1, hc, if_true, if_false]
    congr 3
    ring
  have hgt : s.d.connected = true → 100 < value →
      (setExcitation value s).d.cam = s.d.cam ++ [CamCall.setHue (1 / 2)] := by
    intro hc hv
    simp only [setExcitation, setLed, gt_iff_lt, hv, hc, if_true]
    congr 3
    norm_num
  refine ⟨hle, hgt, fun hc => ?_, fun hc => ?_⟩
  · by_cases hv : value ≤ 100
    · refine ⟨(value : ℚ) / 200, hle hc hv, ?_⟩
      have h : (value : ℚ) ≤ 100 := by exact_mod_cast hv
      linarith
    · exact ⟨1 / 2, hgt hc (by omega), le_refl _⟩
  · simp [setExcitation, setLed, hc]

/-- Witness for C12: on a connected controller the arguments 100, 0 and 50
write the powers 1/2, 0 and 1/4. -/
theorem setExcitation_led_power_witness :
    (connect true (MiniScope.new blank)).2.d.connected = true ∧
      (setExcitation 100 (connect true (MiniScope.new blank)).2).d.cam =
        (connect true (MiniScope.new blank)).2.d.cam ++ [CamCall.setHue (((100 : Int) : ℚ) / 200)] ∧
      (setExcitation 0 (connect true (MiniScope.new blank)).2).d.cam =
        (connect true (MiniScope.new blank)).2.d.cam ++ [CamCall.setHue (((0 : Int) : ℚ) / 200)] ∧
      (setExcitation 50 (connect true (MiniScope.new blank)).2).d.cam =
        (connect true (MiniScope.new blank)).2.d.cam ++ [CamCall.setHue (((50 : Int) : ℚ) / 200)] ∧
      ((100 : Int) : ℚ) / 200 = 1 / 2 ∧ ((0 : Int) : ℚ) / 200 = 0 ∧ ((50 : Int) : ℚ) / 200 = 1 / 4 :=
  ⟨by decide,
    (setExcitation_led_power 100 (connect true (MiniScope.new blank)).2).1 (by decide) (by decide),
    (setExcitation_led_power 0 (connect true (MiniScope.new blank)).2).1 (by decide) (by decide),
    (setExcitation_led_power 50 (connect true (MiniScope.new blank)).2).1 (by decide) (by decide),
    by norm_num, by norm_num, by norm_num⟩

/-- C13: a grab failure ends the session.  When the initial grab fails, or
the initial retrieve delivers no frame, the step of the capture thread
leaves `recording` and `running` clear and `failed` set, its last message is
the failure message, the thread has returned, and no later step changes
anything.  When a grab fails in a pass through the loop, the same flags
result and the message is emitted; in every continuation of the session no
call is issued on the camera, no frame is pushed to the ring, no frame is
passed to `encodeFrame`, and the flags stay as they are. -/
theorem grab_failure_ends_session (s : MiniScope) (t : CaptureThread)
    (ht : s.d.thread = some t) :
    (t.pc = CapturePc.entry →
        (captureStep Capture.grabFailed s).d.recording = false ∧
          (captureStep Capture.grabFailed s).d.running = false ∧
          (captureStep Capture.grabFailed s).d.failed = true ∧
          lastMessage (captureStep Capture.grabFailed s) = some "Failed to grab initial frame." ∧
          threadPc (captureStep Capture.grabFailed s) = some CapturePc.done ∧
          ∀ os, captureSteps os (captureStep Capture.grabFailed s) =
            captureStep Capture.grabFailed s) ∧
      (t.pc = CapturePc.entry → ∀ w,
        (captureStep (Capture.drop w) s).d.recording = false ∧
          (captureStep (Capture.drop w) s).d.running = false ∧
          (captureStep (Capture.drop w) s).d.failed = true ∧
          lastMessage (captureStep (Capture.drop w) s) =
            some "Failed to retrieve initial frame." ∧
          threadPc (captureStep (Capture.drop w) s) = some CapturePc.done ∧
          ∀ os, captureSteps os (captureStep (Capture.drop w) s) =
            captureStep (Capture.drop w) s) ∧
      (t.pc = CapturePc.loop → s.d.running = true →
        (captureStep Capture.grabFailed s).d.recording = false ∧
          (captureStep Capture.grabFailed s).d.running = false ∧
          (captureStep Capture.grabFailed s).d.failed = true ∧
          lastMessage (captureStep Capture.grabFailed s) = some "Failed to grab frame." ∧
          ∀ os,
            (captureSteps os (captureStep Capture.grabFailed s)).d.cam =
                (captureStep Capture.grabFailed s).d.cam ∧
              (captureSteps os (captureStep Capture.grabFailed s)).pushed = s.pushed ∧
              (captureSteps os (captureStep Capture.grabFailed s)).d.frameRing = s.d.frameRing ∧
              threadEncoded (captureSteps os (captureStep Capture.grabFailed s)) =
                some (encodedFrames t.vwriter) ∧
              (captureSteps os (captureStep Capture.grabFailed s)).d.recording = false ∧
              (captureSteps os (captureStep Capture.grabFailed s)).d.running = false ∧
              (captureSteps os (captureStep Capture.grabFailed s)).d.failed = true) := by
  refine ⟨fun hpc => ?_, fun hpc w => ?_, fun hpc hrun => ?_⟩
  · have e : captureStep Capture.grabFailed s =
        setThread { t with pc := CapturePc.done }
          (fail "Failed to grab initial frame."
            (camCall CamCall.grab { s with d := { s.d with droppedFramesCount := 0 } })) := by
      unfold captureStep
      rw [ht]
      simp only [hpc]
      rfl
    rw [e]
    refine ⟨by simp [setThread], by simp [setThread], by simp [setThread], by simp,
      by simp [threadPc, setThread], fun os => ?_⟩
    exact captureSteps_of_done os _ (by simp [threadPc, setThread])
  · have e : ∃ s₁ : MiniScope, captureStep (Capture.drop w) s =
        setThread { t with pc := CapturePc.done }
          (fail "Failed to retrieve initial frame." s₁) := by
      unfold captureStep
      rw [ht]
      simp only [hpc]
      cases w with
      | none => exact ⟨_, rfl⟩
      | some what => exact ⟨_, rfl⟩
    obtain ⟨s₁, e⟩ := e
    rw [e]
    refine ⟨by simp [setThread], by simp [setThread], by simp [setThread], by simp,
      by simp [threadPc, setThread], fun os => ?_⟩
    exact captureSteps_of_done os _ (by simp [threadPc, setThread])
  · have e : captureStep Capture.grabFailed s =
        fail "Failed to grab frame." (camCall CamCall.grab s) := by
      unfold captureStep
      rw [ht]
      simp only [hpc]
      unfold captureLoop
      rw [if_neg (by simp [hrun])]
    rw [e]
    refine ⟨by simp, by simp, by simp, by simp, fun os => ?_⟩
    have ht' : (fail "Failed to grab frame." (camCall CamCall.grab s)).d.thread = some t := by
      simp [camCall, ht]
    rcases captureSteps_after_stop os _ t ht' hpc (by simp) with h | h
    · rw [h]
      simp [camCall, threadEncoded, ht, fail, emitMessage]
      split <;> simp
    · rw [h]
      simp [camCall, threadEncoded, setThread, fail, emitMessage]
      split <;> simp

/-- Witness for C13: the initial grab of a fresh session fails; a grab fails
in the loop of a running session. -/
theorem grab_failure_ends_session_witness :
    threadPc freshSession = some CapturePc.entry ∧
      (captureStep Capture.grabFailed freshSession).d.failed = true ∧
      threadPc colorSession = some CapturePc.loop ∧ colorSession.d.running = true ∧
      (captureStep Capture.grabFailed colorSession).d.running = false ∧
      (captureStep Capture.grabFailed colorSession).d.failed = true :=
  ⟨rfl, ((grab_failure_ends_session freshSession _ rfl).1 rfl).2.2.1, rfl, rfl,
    ((grab_failure_ends_session colorSession _ rfl).2.2 rfl rfl).2.1,
    ((grab_failure_ends_session colorSession _ rfl).2.2 rfl rfl).2.2.1⟩

/-- C14 as stated fails: in `colorSession`, where `colorCheck` is set and
`recording` is clear, a pass of the loop with a delivered frame calls
`encodeFrame`. -/
theorem encodeFrame_called_without_recording :
    colorSession.d.colorCheck = true ∧ colorSession.d.recording = false ∧
      colorSession.d.running = true ∧ threadPc colorSession = some CapturePc.loop ∧
      threadEncoded colorSession = some [] ∧
      threadEncoded (captureStep (Capture.good sampleFrame) colorSession) =
        some [Mat.cvtColor ColorConversion.BayerRG2BGR
          (Mat.cvtColor ColorConversion.BGR2GRAY sampleFrame.1)] :=
  ⟨rfl, rfl, rfl, rfl, rfl, rfl⟩

/-- C14, amended: with `colorCheck` set, a pass of the loop whose retrieve
delivers a frame passes the converted frame to `encodeFrame`, whatever
`recording` is; with `colorCheck` clear, no step of a session ever calls
`encodeFrame`. -/
theorem encodeFrame_follows_colorCheck (s : MiniScope) (t : CaptureThread)
    (ht : s.d.thread = some t) :
    (t.pc = CapturePc.loop → s.d.running = true → s.d.colorCheck = true →
        ∀ (f : Mat) (a b : ℚ),
          threadWriter (captureStep (Capture.grabbed (Retrieve.ok f a b)) s) =
            some (t.vwriter ++ [WriterCall.encodeFrame
              (Mat.cvtColor ColorConversion.BayerRG2BGR
                (Mat.cvtColor ColorConversion.BGR2GRAY f))])) ∧
      (s.d.colorCheck = false → encodedFrames t.vwriter = [] →
        ∀ os, threadEncoded (captureSteps os s) = some []) := by
  refine ⟨fun hpc hrun hcc f a b => ?_, fun hcc henc os => ?_⟩
  · rw [captureStep_at_loop _ s t ht hpc]
    unfold captureLoop
    rw [if_neg (by simp [hrun])]
    simp only []
    rw [if_pos (by simpa [camCall] using hcc)]
    rfl
  · exact captureSteps_colorless os s t ht hcc henc

/-- Witness for C14, amended: `colorSession` has `colorCheck` set and
`recording` clear; `freshSession` has `colorCheck` clear. -/
theorem encodeFrame_follows_colorCheck_witness :
    colorSession.d.recording = false ∧
      threadWriter (captureStep (Capture.grabbed (Retrieve.ok (Mat.sensor 752 480 3 1) 0 255))
          colorSession) =
        some ([WriterCall.setCodec VideoCodec.VP9, WriterCall.setContainer VideoContainer.Matroska,
            WriterCall.setLossless false, WriterCall.init "/tmp/testvideo" 752 480 20 true] ++
          [WriterCall.encodeFrame (Mat.cvtColor ColorConversion.BayerRG2BGR
            (Mat.cvtColor ColorConversion.BGR2GRAY (Mat.sensor 752 480 3 1)))]) ∧
      threadEncoded (captureSteps
        [Capture.good sampleFrame, Capture.good sampleFrame, Capture.good sampleFrame]
        freshSession) = some [] :=
  ⟨rfl, (encodeFrame_follows_colorCheck colorSession _ rfl).1 rfl rfl rfl _ 0 255,
    (encodeFrame_follows_colorCheck freshSession _ rfl).2 rfl rfl _⟩

/-- C15: the writer log of a capture thread keeps its shape through every
step of the session, whatever the camera answers and whatever the flags are
meanwhile.  Before the entry block is through the log is empty; in the loop
the writer has been opened exactly once and not finalized; once the thread
has returned, either the writer was never opened nor finalized, or it was
opened once, then only `encodeFrame` calls follow, then it was finalized
once as the last call.  A session whose initial grab or retrieve fails
returns with an empty log, and a session that finds `running` clear has
returned after two steps. -/
theorem writer_finalized_iff_opened (s : MiniScope) (t : CaptureThread)
    (ht : s.d.thread = some t) (h : WriterShape t) (os : List Capture) :
    (∃ t', (captureSteps os s).d.thread = some t' ∧
        (t'.pc = CapturePc.entry → t'.vwriter = []) ∧
        (t'.pc = CapturePc.loop →
          WriterOpen t'.vwriter ∧ countInit t'.vwriter = 1 ∧ countFinalize t'.vwriter = 0) ∧
        (t'.pc = CapturePc.done →
          (t'.vwriter = [] ∧ countInit t'.vwriter = 0 ∧ countFinalize t'.vwriter = 0) ∨
            ((∃ log, WriterOpen log ∧ t'.vwriter = log ++ [WriterCall.finalize]) ∧
              countInit t'.vwriter = 1 ∧ countFinalize t'.vwriter = 1))) ∧
      (t.pc = CapturePc.entry → ∀ o, o = Capture.grabFailed ∨ o.isDrop = true →
        threadPc (captureStep o s) = some CapturePc.done ∧
          threadWriter (captureStep o s) = some []) ∧
      ((captureSteps os s).d.running = false → ∀ o o',
        threadPc (captureStep o' (captureStep o (captureSteps os s))) = some CapturePc.done) := by
  obtain ⟨t', ht', hshape⟩ := captureSteps_shape os s t ht h
  refine ⟨⟨t', ht', ?_, ?_, ?_⟩, ?_, ?_⟩
  · intro hpc
    unfold WriterShape at hshape
    rw [hpc] at hshape
    exact hshape
  · intro hpc
    unfold WriterShape at hshape
    rw [hpc] at hshape
    exact ⟨hshape, hshape.counts⟩
  · intro hpc
    unfold WriterShape at hshape
    rw [hpc] at hshape
    rcases hshape with h0 | ⟨log, hopen, hlog⟩
    · left
      rw [h0]
      exact ⟨rfl, rfl, rfl⟩
    · right
      refine ⟨⟨log, hopen, hlog⟩, ?_⟩
      rw [hlog]
      exact hopen.counts_finalized
  · intro hpc o ho
    have hw : t.vwriter = [] := by
      unfold WriterShape at h
      rw [hpc] at h
      exact h
    rw [captureStep_at_entry o s t ht hpc]
    unfold captureEntry
    rcases o with _ | r
    · simp [threadPc, threadWriter, setThread, hw]
    · rcases r with ⟨f, a, b⟩ | _ | w
      · simp [Capture.isDrop] at ho
      · simp [threadPc, threadWriter, setThread, hw]
      · simp [threadPc, threadWriter, setThread, hw]
  · intro hrun o o'
    exact two_steps_finish o o' _ t' ht' hrun

/-- Witness for C15: a fresh session gets its first frame, then a grab
fails; the thread returns with a log that opens the writer once and
finalizes it once. -/
theorem writer_finalized_iff_opened_witness :
    freshSession.d.thread = some { pc := CapturePc.entry, frame := Mat.empty, vwriter := [] } ∧
      threadWriter (captureSteps
        [Capture.good sampleFrame, Capture.grabFailed, Capture.grabFailed] freshSession) =
        some [WriterCall.setCodec VideoCodec.VP9, WriterCall.setContainer VideoContainer.Matroska,
          WriterCall.setLossless false, WriterCall.init "/tmp/testvideo" 752 480 20 true,
          WriterCall.finalize] ∧
      (∃ t', (captureSteps [Capture.good sampleFrame, Capture.grabFailed, Capture.grabFailed]
          freshSession).d.thread = some t' ∧
        (t'.pc = CapturePc.entry → t'.vwriter = []) ∧
        (t'.pc = CapturePc.loop →
          WriterOpen t'.vwriter ∧ countInit t'.vwriter = 1 ∧ countFinalize t'.vwriter = 0) ∧
        (t'.pc = CapturePc.done →
          (t'.vwriter = [] ∧ countInit t'.vwriter = 0 ∧ countFinalize t'.vwriter = 0) ∨
            ((∃ log, WriterOpen log ∧ t'.vwriter = log ++ [WriterCall.finalize]) ∧
              countInit t'.vwriter = 1 ∧ countFinalize t'.vwriter = 1))) :=
  ⟨rfl, rfl,
    (writer_finalized_iff_opened freshSession
      { pc := CapturePc.entry, frame := Mat.empty, vwriter := [] } rfl rfl
      [Capture.good sampleFrame, Capture.grabFailed, Capture.grabFailed]).1⟩

/-- C17: in every state reached from a freshly constructed controller by any
history of calls and capture-thread steps, the number of capture threads
created minus the number joined is 0 when there is no thread handle and 1
when there is one.  In such a state `finishCaptureThread` joins the thread
if there is one, which has then returned, and leaves no handle;
`startCaptureThread` creates its thread only after that, so that exactly one
thread is live afterwards; and after `stop` or `disconnect` no handle
remains and no thread is live. -/
theorem at_most_one_capture_thread (u : MiniScopeData) (ops : List Op) (o : Capture) :
    ((liveThreads (runOps ops (MiniScope.new u)) = 0 ∧
          (runOps ops (MiniScope.new u)).d.thread = none) ∨
        (liveThreads (runOps ops (MiniScope.new u)) = 1 ∧
          (runOps ops (MiniScope.new u)).d.thread.isSome = true)) ∧
      ((finishCaptureThread o (runOps ops (MiniScope.new u))).d.thread = none ∧
        (finishCaptureThread o (runOps ops (MiniScope.new u))).joined =
          (runOps ops (MiniScope.new u)).joined +
            (if (runOps ops (MiniScope.new u)).d.thread.isSome = true then 1 else 0) ∧
        ((runOps ops (MiniScope.new u)).d.thread.isSome = true →
          threadPc (join o { runOps ops (MiniScope.new u) with
            d := { (runOps ops (MiniScope.new u)).d with running := false } }) =
            some CapturePc.done)) ∧
      ((startCaptureThread o (runOps ops (MiniScope.new u))).spawned =
          (finishCaptureThread o (runOps ops (MiniScope.new u))).spawned + 1 ∧
        (startCaptureThread o (runOps ops (MiniScope.new u))).joined =
          (finishCaptureThread o (runOps ops (MiniScope.new u))).joined ∧
        liveThreads (startCaptureThread o (runOps ops (MiniScope.new u))) = 1) ∧
      ((stop o (runOps ops (MiniScope.new u))).d.thread = none ∧
        liveThreads (stop o (runOps ops (MiniScope.new u))) = 0 ∧
        (disconnect o (runOps ops (MiniScope.new u))).d.thread = none ∧
        liveThreads (disconnect o (runOps ops (MiniScope.new u))) = 0) := by
  have hinit : ThreadsCounted (MiniScope.new u) := by
    simp [ThreadsCounted, MiniScope.new]
  have hs := (runOps_facts ops (MiniScope.new u)).2 hinit
  generalize runOps ops (MiniScope.new u) = s at hs ⊢
  have live : ∀ x : MiniScope, ThreadsCounted x →
      (liveThreads x = 0 ∧ x.d.thread = none) ∨ (liveThreads x = 1 ∧ x.d.thread.isSome = true) := by
    intro x hx
    unfold ThreadsCounted at hx
    unfold liveThreads
    cases hth : x.d.thread with
    | none =>
      left
      rw [hth] at hx
      simp at hx
      exact ⟨by omega, rfl⟩
    | some t =>
      right
      rw [hth] at hx
      simp at hx
      exact ⟨by omega, rfl⟩
  have live0 : ∀ x : MiniScope, ThreadsCounted x → x.d.thread = none → liveThreads x = 0 := by
    intro x hx hnone
    rcases live x hx with h | h
    · exact h.1
    · rw [hnone] at h
      exact absurd h.2 (by simp)
  obtain ⟨_, f1, f2, f3⟩ := finishCaptureThread_facts o s
  obtain ⟨_, g1, g2, g3⟩ := startCaptureThread_facts o s
  refine ⟨live s hs, ⟨f1, f3, fun hsome => ?_⟩, ⟨by rw [g2, f2], by rw [g3, f3], ?_⟩,
    (stop_facts o s).2.1, live0 _ (stop_counted o s hs) (stop_facts o s).2.1,
    (disconnect_facts o s).2.1, live0 _ (disconnect_counted o s hs) (disconnect_facts o s).2.1⟩
  · cases hth : s.d.thread with
    | none =>
      rw [hth] at hsome
      exact absurd hsome (by simp)
    | some t =>
      have h2 := two_steps_finish o o { s with d := { s.d with running := false } } t hth rfl
      unfold join
      exact h2
  · rcases live _ (startCaptureThread_counted o s hs) with h | h
    · rw [g1] at h
      exact absurd h.2 (by simp)
    · exact h.1

/-- Witness for C17: after `connect` and `run` one thread is live and it has
a handle; `run` again joins it before it creates the next one. -/
theorem at_most_one_capture_thread_witness :
    (runOps [Op.connect true, Op.run true Capture.grabFailed] (MiniScope.new blank)).d.thread.isSome
        = true ∧
      liveThreads (runOps [Op.connect true, Op.run true Capture.grabFailed]
        (MiniScope.new blank)) = 1 ∧
      threadPc (join Capture.grabFailed
        { runOps [Op.connect true, Op.run true Capture.grabFailed] (MiniScope.new blank) with
          d := { (runOps [Op.connect true, Op.run true Capture.grabFailed]
            (MiniScope.new blank)).d with running := false } }) = some CapturePc.done ∧
      liveThreads (startCaptureThread Capture.grabFailed
        (runOps [Op.connect true, Op.run true Capture.grabFailed] (MiniScope.new blank))) = 1 :=
  ⟨rfl, by decide,
    (at_most_one_capture_thread blank [Op.connect true, Op.run true Capture.grabFailed]
      Capture.grabFailed).2.1.2.2 rfl,
    (at_most_one_capture_thread blank [Op.connect true, Op.run true Capture.grabFailed]
      Capture.grabFailed).2.2.1.2.2⟩

/-- C18: over any history of calls and capture-thread steps, from any state,
`failed` once set stays set and `connected` once set stays set; so it is
after `fail` and after `connect`. -/
theorem failed_and_connected_stay_set (s : MiniScope) (ops : List Op) :
    (s.d.failed = true → (runOps ops s).d.failed = true) ∧
      (s.d.connected = true → (runOps ops s).d.connected = true) ∧
      (∀ msg, (runOps ops (fail msg s)).d.failed = true) ∧
      (∀ opened, (runOps ops (connect opened s).2).d.connected = true) :=
  ⟨(runOps_facts ops s).1.1, (runOps_facts ops s).1.2,
    fun msg => (runOps_facts ops (fail msg s)).1.1 (by simp),
    fun opened => (runOps_facts ops (connect opened s).2).1.2 (connect_flags opened s).1⟩

/-- Witness for C18: after a failed session, `disconnect`, `connect`, `run`
and `stop` leave `failed` and `connected` set. -/
theorem failed_and_connected_stay_set_witness :
    failedSession.d.failed = true ∧ failedSession.d.connected = true ∧
      (runOps [Op.disconnect Capture.grabFailed, Op.connect true,
        Op.run true Capture.grabFailed, Op.stop Capture.grabFailed] failedSession).d.failed =
        true ∧
      (runOps [Op.disconnect Capture.grabFailed, Op.connect true,
        Op.run true Capture.grabFailed, Op.stop Capture.grabFailed] failedSession).d.connected =
        true :=
  ⟨rfl, rfl,
    (failed_and_connected_stay_set failedSession
      [Op.disconnect Capture.grabFailed, Op.connect true, Op.run true Capture.grabFailed,
        Op.stop Capture.grabFailed]).1 rfl,
    (failed_and_connected_stay_set failedSession
      [Op.disconnect Capture.grabFailed, Op.connect true, Op.run true Capture.grabFailed,
        Op.stop Capture.grabFailed]).2.1 rfl⟩

end MiniScope

end PoMiDAQ
